import Mathlib

set_option autoImplicit false

/-!
Verification development for the support-pipeline decision core
(`services/ai-engine`): the orchestrator (`agents/orchestrator.py`), the
evaluation gates (`agents/eval_gate.py`, `agents/qa_agent.py`), the response
assembler (`agents/response_assembler.py`), the red-line guardrails
(`guardrails/safety.py`), and the webhook bridge with its dedup cache
(`api/routes.py`).

The Python sources are embedded shallowly: pure functions become Lean
functions over `String`/`List Char`; external collaborators (LLM calls, the
relational store, the stdlib hash) become explicit oracle parameters; Python
exceptions become `Except String`.  The fixed regular expressions of the
source are embedded through a small executable pattern engine (`RAtom`)
whose matching order mirrors Python's `re` semantics (leftmost position,
alternatives in written order, greedy quantifiers with backtracking,
non-overlapping substitution that resumes after the replaced span).
-/

namespace LH

/-! ## Pattern engine

Mirrors the subset of Python `re` used by the sources: literals, one-char
classes, optional literal groups `(?:a )?`, ordered alternation
`(x|y)`, optional alternation `(a |your )?`, `\s+`, `[..]+`, `\s*`, `\n?`
and the word boundary `\b`.  Case-insensitive matching (`re.IGNORECASE`)
is the `ci := true` mode; ASCII case folding matches the source because
every embedded pattern and every text the proofs touch is ASCII.
-/

/-- One atom of a pattern. -/
inductive RAtom where
  /-- a literal string -/
  | lit (s : List Char)
  /-- exactly one character of a class -/
  | cls (p : Char → Bool)
  /-- an optional literal group such as `(?:a )?` (greedy) -/
  | optLit (s : List Char)
  /-- ordered alternation of literals, e.g. `(cancelled|canceled)` -/
  | alt (ss : List (List Char))
  /-- optional ordered alternation, e.g. `(a |your )?` (greedy) -/
  | optAlt (ss : List (List Char))
  /-- one or more characters of a class (greedy), e.g. `[\w._]+` -/
  | plus (p : Char → Bool)
  /-- zero or more characters of a class (greedy), e.g. `\s*` -/
  | star (p : Char → Bool)
  /-- the zero-width word boundary `\b` -/
  | bound

/-- A pattern is a sequence of atoms. -/
abbrev RPat := List RAtom

/-- Character comparison; `ci := true` is `re.IGNORECASE` (ASCII fold). -/
def chEq (ci : Bool) (a b : Char) : Bool :=
  if ci then a.toLower == b.toLower else a == b

/-- Does `pat` start the text `s` (under `ci`)?  Returns the remainder. -/
def litChop (ci : Bool) : List Char → List Char → Option (List Char)
  | [], s => some s
  | _ :: _, [] => none
  | p :: ps, c :: cs => if chEq ci p c then litChop ci ps cs else none

/-- `\w` of Python `re` restricted to ASCII: letters, digits, underscore. -/
def isWordChar (c : Char) : Bool :=
  (c.isAlpha || c.isDigit || c == '_')

/-- `\s` whitespace class of Python `re` (ASCII part). -/
def isSpaceChar (c : Char) : Bool :=
  c == ' ' || c == '\t' || c == '\n' || c == '\r' || c == '\x0b' || c == '\x0c'

/-- Matching state: the character just before the current position (for
`\b`), and the rest of the text. -/
abbrev MState := Option Char × List Char

/-- Advance a state by consuming `n` characters. -/
def consume (st : MState) (n : Nat) : MState :=
  if n = 0 then st
  else
    match (st.2.take n).getLast? with
    | some c => (some c, st.2.drop n)
    | none => st

/-- Length of the maximal run of `p`-characters at the front. -/
def runLen (p : Char → Bool) : List Char → Nat
  | [] => 0
  | c :: cs => if p c then runLen p cs + 1 else 0

/-- The ways an atom can match at a state, in the preference order of
Python `re` (alternatives in written order, greedy quantifiers longest
first, optional groups present first). -/
def atomOptions (ci : Bool) : RAtom → MState → List MState
  | .lit l, st =>
      match litChop ci l st.2 with
      | some _ => [consume st l.length]
      | none => []
  | .cls p, st =>
      match st.2 with
      | c :: _ => if p c then [consume st 1] else []
      | [] => []
  | .optLit l, st =>
      (match litChop ci l st.2 with
       | some _ => [consume st l.length]
       | none => []) ++ [st]
  | .alt ss, st =>
      ss.filterMap fun l =>
        match litChop ci l st.2 with
        | some _ => some (consume st l.length)
        | none => none
  | .optAlt ss, st =>
      (ss.filterMap fun l =>
        match litChop ci l st.2 with
        | some _ => some (consume st l.length)
        | none => none) ++ [st]
  | .plus p, st =>
      let k := runLen p st.2
      (List.range k).map fun i => consume st (k - i)
  | .star p, st =>
      let k := runLen p st.2
      (List.range (k + 1)).map fun i => consume st (k - i)
  | .bound, st =>
      let before := match st.1 with | some c => isWordChar c | none => false
      let after := match st.2 with | c :: _ => isWordChar c | [] => false
      if before != after then [st] else []

/-- First success of `f` over a list, in order. -/
def firstSome {α β : Type} (f : α → Option β) : List α → Option β
  | [] => none
  | a :: as =>
      match f a with
      | some b => some b
      | none => firstSome f as

/-- Match a whole pattern at a state, with backtracking; returns the state
after the match (Python `re` preference order). -/
def matchSeq (ci : Bool) : RPat → MState → Option MState
  | [], st => some st
  | a :: rest, st => firstSome (matchSeq ci rest) (atomOptions ci a st)

/-- Leftmost match of `p` in the suffix `s` whose preceding character is
`prev`: returns `(start offset, matched length)`. -/
def searchFrom (ci : Bool) (p : RPat) : Option Char → List Char → Option (Nat × Nat)
  | prev, s =>
      match matchSeq ci p (prev, s) with
      | some (_, rest) => some (0, s.length - rest.length)
      | none =>
          match s with
          | [] => none
          | c :: t => (searchFrom ci p (some c) t).map fun il => (il.1 + 1, il.2)

/-- Python `re.search`: does `p` match anywhere in `s`? -/
def rsearch (ci : Bool) (p : RPat) (s : List Char) : Bool :=
  (searchFrom ci p none s).isSome

/-- Python `re.sub` (replace all, non-overlapping, resuming after each
replaced span; matches are found in the original text).  Every pattern
this development substitutes with matches at least one character, so the
fuel `s.length` never runs out. -/
def rsubFuel (ci : Bool) (p : RPat) (repl : List Char) :
    Nat → Option Char → List Char → List Char
  | 0, _, s => s
  | fuel + 1, prev, s =>
      match searchFrom ci p prev s with
      | none => s
      | some (i, l) =>
          if l = 0 then s
          else
            let newPrev := match (s.take (i + l)).getLast? with
              | some c => some c
              | none => prev
            s.take i ++ repl ++ rsubFuel ci p repl fuel newPrev (s.drop (i + l))

/-- Python `re.sub` with `count = 0` (all occurrences). -/
def rsub (ci : Bool) (p : RPat) (repl : List Char) (s : List Char) : List Char :=
  rsubFuel ci p repl s.length none s

/-- Python `re.sub` with `count = 1` (first occurrence only). -/
def rsub1 (ci : Bool) (p : RPat) (repl : List Char) (s : List Char) : List Char :=
  match searchFrom ci p none s with
  | none => s
  | some (i, l) => if l = 0 then s else s.take i ++ repl ++ s.drop (i + l)

/-- Index of the leftmost occurrence of the literal `pat` in `s`. -/
def findLit : List Char → List Char → Option Nat
  | _, [] => none
  | pat, c :: cs =>
      match litChop false pat (c :: cs) with
      | some _ => some 0
      | none => (findLit pat cs).map (· + 1)

/-- Python `x in s` for strings (substring containment); `pat = []` is
always contained, matching Python. -/
def containsLit (pat s : List Char) : Bool :=
  match pat with
  | [] => true
  | _ => (findLit pat s).isSome

/-- Python `str.replace` (all occurrences, case-sensitive, resuming after
each replacement).  Callers in the sources always pass a non-empty
pattern, so the fuel `s.length` suffices. -/
def pyReplaceFuel (pat repl : List Char) : Nat → List Char → List Char
  | 0, s => s
  | fuel + 1, s =>
      match pat with
      | [] => s
      | _ =>
          match findLit pat s with
          | none => s
          | some i =>
              s.take i ++ repl ++ pyReplaceFuel pat repl fuel (s.drop (i + pat.length))

/-- Python `str.replace`. -/
def pyReplace (pat repl s : List Char) : List Char :=
  pyReplaceFuel pat repl s.length s

/-- Python `str.strip()` (whitespace from both ends). -/
def stripWs (s : List Char) : List Char :=
  ((s.dropWhile isSpaceChar).reverse.dropWhile isSpaceChar).reverse

/-! String-level wrappers. -/

/-- Python `str.lower()` (ASCII fold; all texts in scope are ASCII). -/
def lowerS (s : String) : String := ⟨s.data.map Char.toLower⟩

/-- `re.search` on strings. -/
def rsearchS (ci : Bool) (p : RPat) (s : String) : Bool := rsearch ci p s.data

/-- `re.sub` (all occurrences) on strings. -/
def rsubS (ci : Bool) (p : RPat) (repl : String) (s : String) : String :=
  ⟨rsub ci p repl.data s.data⟩

/-- `re.sub` (`count = 1`) on strings. -/
def rsub1S (ci : Bool) (p : RPat) (repl : String) (s : String) : String :=
  ⟨rsub1 ci p repl.data s.data⟩

/-- `x in s` on strings. -/
def containsS (pat s : String) : Bool := containsLit pat.data s.data

/-- `str.replace` on strings. -/
def pyReplaceS (pat repl s : String) : String := ⟨pyReplace pat.data repl.data s.data⟩

/-- `str.strip()` on strings. -/
def stripS (s : String) : String := ⟨stripWs s.data⟩

/-- Literal-atom shorthand taking a string. -/
def A.lit (s : String) : RAtom := RAtom.lit s.data

/-- Alternation shorthand taking strings. -/
def A.alt (ss : List String) : RAtom := RAtom.alt (ss.map String.data)

/-- Optional-literal shorthand taking a string. -/
def A.optLit (s : String) : RAtom := RAtom.optLit s.data

/-- Optional-alternation shorthand taking strings. -/
def A.optAlt (ss : List String) : RAtom := RAtom.optAlt (ss.map String.data)

/-! ## `guardrails/safety.py` -/

/-- `RED_LINE_PATTERNS` of `guardrails/safety.py`: each regex
`\b(w1|w2|...)\b` paired with its trigger name, in source order. -/
def RED_LINE_PATTERNS : List (RPat × String) :=
  [ ([.bound, A.alt ["kill", "murder", "die", "death threat"], .bound], "death_threat"),
    ([.bound, A.alt ["sue", "lawsuit", "lawyer", "legal action", "court"], .bound], "legal_threat"),
    ([.bound, A.alt ["bank dispute", "chargeback", "dispute the charge"], .bound], "bank_dispute"),
    ([.bound, A.alt ["suicide", "end my life", "harm myself"], .bound], "self_harm"),
    ([.bound, A.alt ["bomb", "weapon", "attack"], .bound], "violence_threat") ]

/-- Result dict of `check_red_lines`. -/
structure RedLineResult where
  is_flagged : Bool
  trigger : Option String
  action : Option String
  deriving Repr, DecidableEq

/-- `check_red_lines(message)`: lowercase the message, scan the red-line
table in order, first hit wins. -/
def check_red_lines (message : String) : RedLineResult :=
  let low := (lowerS message).data
  match RED_LINE_PATTERNS.find? (fun pv => rsearch false pv.1 low) with
  | some pv => ⟨true, some pv.2, some "escalate"⟩
  | none => ⟨false, none, none⟩

/-! ## `agents/eval_gate.py` -/

/-- Individual evaluation check (`EvalCheck`).  The float score is
embedded as a rational; the sources only ever construct literal scores
and never do arithmetic on them. -/
structure EvalCheck where
  name : String
  passed : Bool
  score : ℚ
  detail : String := ""
  deriving Repr, DecidableEq

/-- Structured output of the eval gate (`EvalGateOutput`). -/
structure EvalGateOutput where
  decision : String
  confidence : String := "high"
  checks : List EvalCheck := []
  override_reason : Option String := none
  deriving Repr, DecidableEq

/-- `UNSAFE_RESPONSE_PATTERNS` of `agents/eval_gate.py` (identical to the
table in `guardrails/safety.py`): regexes paired with violation names, in
source order.  The regexes are matched against the lowercased reply. -/
def UNSAFE_RESPONSE_PATTERNS : List (RPat × String) :=
  [ ([A.alt ["cancelled", "canceled"], A.lit " your subscription"], "confirmed_cancellation"),
    ([A.lit "subscription ", A.alt ["has been", "is now"], A.lit " ",
      A.alt ["cancelled", "canceled"]], "confirmed_cancellation"),
    ([A.alt ["paused", "suspended"], A.lit " your subscription"], "confirmed_pause"),
    ([A.lit "subscription ", A.alt ["has been", "is now"], A.lit " ",
      A.alt ["paused", "suspended"]], "confirmed_pause"),
    ([A.alt ["processed", "issued", "approved"], A.lit " ",
      A.optAlt ["a ", "your "], A.alt ["refund", "reimbursement"]], "confirmed_refund"),
    ([A.lit "refund ", A.alt ["has been", "is now", "was"], A.lit " ",
      A.alt ["processed", "issued", "approved"]], "confirmed_refund") ]

/-- `fast_safety_check(response)`: Tier-1 deterministic scan.  Returns
`(is_safe, violation_name)`. -/
def fast_safety_check (response : String) : Bool × Option String :=
  let low := (lowerS response).data
  match UNSAFE_RESPONSE_PATTERNS.find? (fun pv => rsearch false pv.1 low) with
  | some pv => (false, some pv.2)
  | none => (true, none)

/-- Outcome of one external structured-LLM call: the call can raise, can
return content of an unexpected type (the `isinstance` guard fails), or
can return a parsed value. -/
inductive CallResult (α : Type) where
  | raises (err : String)
  | unparseable
  | returns (out : α)
  deriving Repr, DecidableEq

/-- The outstanding-case coercion applied to a parsed judge verdict
(`eval_gate.py` lines 200-203). -/
def eval_coerce (is_outstanding : Bool) (result : EvalGateOutput) : EvalGateOutput :=
  if is_outstanding && result.decision == "send" && result.confidence != "high" then
    { result with
      decision := "draft"
      override_reason :=
        some "Outstanding case with non-high confidence forced to draft" }
  else result

/-- `evaluate_response` of `agents/eval_gate.py`.  The Tier-2 semantic
judge (the `Agent.arun` call on the built prompt) is the oracle argument
`judge`; the prompt itself only feeds that call and does not affect the
gate's own logic.  `tools_available` likewise only feeds the prompt. -/
def evaluate_response (judge : CallResult EvalGateOutput)
    (customer_message ai_response category : String)
    (is_outstanding : Bool) (tools_available : Option (List String)) :
    EvalGateOutput :=
  let _ := customer_message
  let _ := category
  let _ := tools_available
  match fast_safety_check ai_response with
  | (false, violation) =>
      let v := violation.getD "None"
      { decision := "draft"
        confidence := "high"
        checks := [{ name := "safety", passed := false, score := 0,
                     detail := "Regex safety violation: " ++ v }]
        override_reason := some ("Fast-fail regex: " ++ v) }
  | (true, _) =>
      match judge with
      | .raises e =>
          { decision := "draft", confidence := "low",
            override_reason := some ("Eval gate error: " ++ e) }
      | .unparseable =>
          { decision := "draft", confidence := "low",
            override_reason := some "Parse error" }
      | .returns result => eval_coerce is_outstanding result

/-! ## `agents/qa_agent.py` -/

/-- Structured output of the QA agent (`QAOutput`). -/
structure QAOutput where
  decision : String
  confidence : String := "high"
  checks : List EvalCheck := []
  feedback : Option String := none
  override_reason : Option String := none
  deriving Repr, DecidableEq

/-- The retry and outstanding-case coercions applied to a parsed QA
verdict (`qa_agent.py` lines 202-210): "refine" is disallowed when
`attempt > 1`, then the outstanding bias is applied. -/
def qa_coerce (attempt : Nat) (is_outstanding : Bool) (result : QAOutput) : QAOutput :=
  let r1 :=
    if attempt > 1 && result.decision == "refine" then
      { result with
        decision := "draft"
        override_reason := some "Refine not allowed on retry — forced to draft" }
    else result
  if is_outstanding && r1.decision == "send" && r1.confidence != "high" then
    { r1 with
      decision := "draft"
      override_reason :=
        some "Outstanding case with non-high confidence forced to draft" }
  else r1

/-- `qa_evaluate` of `agents/qa_agent.py`.  Tier 1 reuses
`fast_safety_check` from `agents/eval_gate.py`; the Tier-2 LLM call is
the oracle argument `judge`.  `attempt` and `previous_feedback` feed the
prompt and the retry coercion. -/
def qa_evaluate (judge : CallResult QAOutput)
    (customer_message ai_response category : String)
    (is_outstanding : Bool) (tools_available : Option (List String))
    (attempt : Nat) (previous_feedback : Option String) : QAOutput :=
  let _ := customer_message
  let _ := category
  let _ := tools_available
  let _ := previous_feedback
  match fast_safety_check ai_response with
  | (false, violation) =>
      let v := violation.getD "None"
      { decision := "draft"
        confidence := "high"
        checks := [{ name := "safety", passed := false, score := 0,
                     detail := "Regex safety violation: " ++ v }]
        override_reason := some ("Fast-fail regex: " ++ v) }
  | (true, _) =>
      match judge with
      | .raises e =>
          { decision := "draft", confidence := "low",
            override_reason := some ("QA agent error: " ++ e) }
      | .unparseable =>
          { decision := "draft", confidence := "low",
            override_reason := some "Parse error" }
      | .returns result => qa_coerce attempt is_outstanding result

/-! ## `agents/response_assembler.py` -/

/-- Lookup in a Python-dict-like association list (`dict.get`). -/
def alget {α : Type} (m : List (String × α)) (k : String) : Option α :=
  (m.find? (fun kv => kv.1 == k)).map Prod.snd

/-- `OPENERS` keyed by category group. -/
def OPENERS : List (String × List String) :=
  [ ("shipping",
     [ "I\u0027d be happy to help you with your shipment!",
       "Let me look into your delivery for you.",
       "I understand how important it is to receive your package on time." ]),
    ("payment",
     [ "I\u0027d be happy to help with your payment question.",
       "Let me look into your billing details.",
       "I understand you have a question about your payment." ]),
    ("subscription",
     [ "I\u0027d be happy to help with your subscription.",
       "Let me assist you with that change.",
       "I can help you with your subscription request." ]),
    ("damage",
     [ "I\u0027m sorry to hear about the issue with your package.",
       "I apologize for the inconvenience — let me help resolve this.",
       "I\u0027m sorry that happened. Let me help make it right." ]),
    ("retention",
     [ "I\u0027m sorry to hear you\u0027re considering leaving us.",
       "I understand, and I appreciate you reaching out before making a decision.",
       "Thank you for letting us know. I\u0027d love the opportunity to help." ]),
    ("gratitude",
     [ "What a wonderful message — thank you so much!",
       "That truly means a lot to our team!",
       "Thank you for your kind words!" ]),
    ("general",
     [ "Thank you for reaching out to us.",
       "I\u0027d be happy to help you with that.",
       "Thank you for contacting Lev Haolam support." ]) ]

/-- `CATEGORY_TO_GROUP`. -/
def CATEGORY_TO_GROUP : List (String × String) :=
  [ ("shipping_or_delivery_question", "shipping"),
    ("payment_question", "payment"),
    ("frequency_change_request", "subscription"),
    ("skip_or_pause_request", "subscription"),
    ("recipient_or_address_change", "subscription"),
    ("customization_request", "subscription"),
    ("damaged_or_leaking_item_report", "damage"),
    ("retention_primary_request", "retention"),
    ("retention_repeated_request", "retention"),
    ("gratitude", "gratitude") ]

/-- `CLOSERS`. -/
def CLOSERS : List String :=
  [ "If you have any other questions, please don\u0027t hesitate to reach out.",
    "Please let me know if there\u0027s anything else I can help with.",
    "Feel free to contact us again if you need further assistance.",
    "Don\u0027t hesitate to reach out if you need anything else.",
    "I\u0027m here if you need any further help.",
    "Please let me know if you have any other questions or concerns.",
    "We\u0027re always here to help — just reach out anytime.",
    "Is there anything else I can assist you with today?" ]

/-- `SIGN_OFF`. -/
def SIGN_OFF : String := "Warm regards,<br>Lev Haolam Support Team"

/-- `_is_system_response(text)`: system/escalation phrases that must not
be wrapped. -/
def is_system_response (text : String) : Bool :=
  let low := lowerS text
  [ "connecting you with a support agent",
    "connect you with a human",
    "having trouble processing",
    "let me connect you" ].any (fun phrase => containsS phrase low)

/-- Remove a match of `pat` anchored at the start of the text (a
`re.sub(pattern, "", text)` whose pattern begins with `^` and therefore
matches at position 0 only, `re.MULTILINE` being off). -/
def subAnchored (ci : Bool) (pat : RPat) (text : String) : String :=
  match matchSeq ci pat (none, text.data) with
  | some st => ⟨st.2⟩
  | none => text

/-- `_strip_existing_greeting(text, customer_name)`: drop a leading
`Dear/Hi/Hello/Hey <name>[,!]` greeting, then a leading generic greeting,
stripping whitespace after each removal (both subs are `IGNORECASE`). -/
def strip_existing_greeting (text customer_name : String) : String :=
  let p1 : RPat :=
    [ A.alt ["Dear", "Hi", "Hello", "Hey"], .plus isSpaceChar,
      A.lit customer_name, A.optAlt [",", "!"], .star isSpaceChar, A.optLit "\n" ]
  let t1 := stripS (subAnchored true p1 text)
  let p2 : RPat :=
    [ A.alt ["Dear Customer", "Dear Client", "Hello", "Hi there"],
      A.optAlt [",", "!"], .star isSpaceChar, A.optLit "\n" ]
  stripS (subAnchored true p2 t1)

/-- The `[’'']` apostrophe class of the dangerous-promise
patterns (the straight quote is listed twice in the source). -/
def isApos (c : Char) : Bool := c == Char.ofNat 0x2019 || c == Char.ofNat 0x27

/-- The `[\w._]` class of the internal-field patterns. -/
def isFieldChar (c : Char) : Bool := isWordChar c || c == '.'

/-- `dangerous_patterns` of `_sanitize_response`, in source order
(matched with `IGNORECASE | DOTALL`; none of them contains `.`, so
`DOTALL` is inert). -/
def dangerous_patterns : List (RPat × String) :=
  [ ([A.lit "we", .cls isApos, A.lit "ll arrange for ", A.optLit "a ", A.lit "reshipment"],
     "our team will review your case and reach out with a resolution"),
    ([A.lit "we", .cls isApos, A.lit "ll arrange for ", A.optLit "a ", A.lit "replacement"],
     "our team will investigate and get back to you"),
    ([A.lit "we", .cls isApos, A.lit "ll send ", A.optLit "a ", A.lit "replacement"],
     "our team will review this and contact you"),
    ([A.lit "replacement", A.optLit "s", A.lit " will be sent"],
     "our team will reach out with next steps"),
    ([A.lit "we", .cls isApos, A.lit "ll arrange"],
     "our team will review and") ]

/-- The shared replacement of the internal-field patterns. -/
def fieldFallback : String :=
  "I apologize, but I\u0027m unable to locate that information at the moment. " ++
    "Could you please provide your email address or order number?"

/-- `internal_field_patterns` of `_sanitize_response`, in source order
(matched with `IGNORECASE`). -/
def internal_field_patterns : List (RPat × String) :=
  [ ([A.lit "I don\u0027t have", .plus isSpaceChar,
      A.alt ["payer.email", "next_planned_unpaid_box.payment_date_planned",
             "subscription_status"],
      .plus isSpaceChar, A.lit "for the customer", A.optLit "."],
     fieldFallback),
    ([A.lit "I don\u0027t have", .plus isSpaceChar, .plus isFieldChar,
      A.lit ".", .plus isFieldChar, .plus isSpaceChar, A.lit "for"],
     fieldFallback) ]

/-- `_sanitize_response(text, category)`: remove the leaked internal
message, rewrite dangerous compensation promises, replace internal-field
leakage, then strip.  (The source's `re.search` before each `re.sub` and
its `sanitized` flag only drive logging; `category` is only logged.) -/
def sanitize_response (text category : String) : String :=
  let _ := category
  let t0 :=
    if containsS "Answer is not needed" text then
      pyReplaceS "Answer is not needed" "" (pyReplaceS "Answer is not needed." "" text)
    else text
  let t1 := dangerous_patterns.foldl (fun t pr => rsubS true pr.1 pr.2 t) t0
  let t2 := internal_field_patterns.foldl (fun t pr => rsubS true pr.1 pr.2 t) t1
  stripS t2

/-- `assemble_response(raw_response, customer_name, category, session_id)`.
`md5_index` is the oracle for the stdlib call
`int(hashlib.md5(session_id.encode()).hexdigest(), 16)`: a deterministic
external function of `session_id`, not code of this repository. -/
def assemble_response (md5_index : Nat)
    (raw_response customer_name category session_id : String) : String :=
  let _ := session_id
  if is_system_response raw_response then raw_response
  else
    let idx := md5_index
    let greeting := "Dear " ++ customer_name ++ ","
    let group := (alget CATEGORY_TO_GROUP category).getD "general"
    let opener_list := (alget OPENERS group).getD ((alget OPENERS "general").getD [])
    let opener := opener_list.getD (idx % opener_list.length) ""
    let body0 := strip_existing_greeting raw_response customer_name
    let body := sanitize_response body0 category
    let closer := CLOSERS.getD (idx % CLOSERS.length) ""
    String.intercalate "\n"
      [ "<div>" ++ greeting ++ "</div>",
        "<div>" ++ opener ++ "</div>",
        "<div>" ++ body ++ "</div>",
        "<div>" ++ closer ++ "</div>",
        "<div>" ++ SIGN_OFF ++ "</div>" ]

/-! ## `tools/retention.py` — `inject_cancel_link` -/

/-- Python truthiness of an optional string (`None` and `""` are falsy). -/
def optTruthy (s : Option String) : Bool :=
  match s with
  | some v => !(v == "")
  | none => false

/-- Python `a or b` on optional strings. -/
def pyOrStr (a b : Option String) : Option String :=
  if optTruthy a then a else b

/-- `inject_cancel_link(response, cancel_url)`: replace explicit
placeholders; if the URL still does not occur, link the first generic
"cancellation page"-style mention (`re.sub` with `count = 1`,
`IGNORECASE`). -/
def inject_cancel_link (response cancel_url : String) : String :=
  let r1 := pyReplaceS "[CANCEL_LINK]" cancel_url response
  let r2 := pyReplaceS "\x7bcancel_link\x7d" cancel_url r1
  let r3 := pyReplaceS "\x7b\x7bcancel_link\x7d\x7d" cancel_url r2
  if containsS cancel_url r3 then r3
  else
    rsub1S true
      [A.alt ["cancellation page", "cancel page", "cancellation link", "cancel link"]]
      ("<a href=\"" ++ cancel_url ++ "\">cancellation page</a>") r3

/-! ## `agents/router.py` and `agents/config.py` -/

/-- Structured router output (`RouterOutput`). -/
structure RouterOutput where
  primary : String
  secondary : Option String := none
  urgency : String := "medium"
  email : Option String := none
  sentiment : String := "neutral"
  escalation_signal : Bool := false
  deriving Repr, DecidableEq

/-- Per-category configuration (`CategoryConfig`). -/
structure CategoryConfig where
  model : String
  model_provider : String
  reasoning_effort : Option String
  tools : List String := []
  pinecone_namespace : String := ""
  auto_send_phase : Nat := 99
  deriving Repr, DecidableEq

/-- `CATEGORY_CONFIG` of `agents/config.py`. -/
def CATEGORY_CONFIG : List (String × CategoryConfig) :=
  [ ("shipping_or_delivery_question",
     { model := "gpt-5.1", model_provider := "openai_chat", reasoning_effort := none,
       tools := ["get_subscription", "track_package"],
       pinecone_namespace := "shipping", auto_send_phase := 2 }),
    ("payment_question",
     { model := "gpt-5.1", model_provider := "openai_responses", reasoning_effort := some "medium",
       tools := ["get_subscription", "get_payment_history"],
       pinecone_namespace := "payment", auto_send_phase := 3 }),
    ("frequency_change_request",
     { model := "gpt-5.1", model_provider := "openai_chat", reasoning_effort := none,
       tools := ["get_subscription", "change_frequency"],
       pinecone_namespace := "subscription", auto_send_phase := 2 }),
    ("skip_or_pause_request",
     { model := "gpt-5.1", model_provider := "openai_chat", reasoning_effort := none,
       tools := ["get_subscription", "skip_month", "pause_subscription"],
       pinecone_namespace := "subscription", auto_send_phase := 2 }),
    ("recipient_or_address_change",
     { model := "gpt-5.1", model_provider := "openai_chat", reasoning_effort := none,
       tools := ["get_subscription", "change_address"],
       pinecone_namespace := "subscription", auto_send_phase := 2 }),
    ("customization_request",
     { model := "gpt-5.1", model_provider := "openai_chat", reasoning_effort := none,
       tools := ["get_subscription", "get_box_contents"],
       pinecone_namespace := "customization", auto_send_phase := 2 }),
    ("damaged_or_leaking_item_report",
     { model := "gpt-5.1", model_provider := "openai_chat", reasoning_effort := none,
       tools := ["get_subscription", "create_damage_claim", "request_photos"],
       pinecone_namespace := "damage", auto_send_phase := 3 }),
    ("gratitude",
     { model := "gpt-5.1", model_provider := "openai_chat", reasoning_effort := none,
       tools := [], pinecone_namespace := "gratitude", auto_send_phase := 1 }),
    ("retention_primary_request",
     { model := "gpt-5.1", model_provider := "openai_responses", reasoning_effort := some "medium",
       tools := ["get_subscription", "generate_cancel_link", "get_customer_history"],
       pinecone_namespace := "retention", auto_send_phase := 4 }),
    ("retention_repeated_request",
     { model := "gpt-5.1", model_provider := "openai_responses", reasoning_effort := some "medium",
       tools := ["get_subscription", "generate_cancel_link"],
       pinecone_namespace := "retention", auto_send_phase := 4 }) ]

/-- `VALID_CATEGORIES = list(CATEGORY_CONFIG.keys())`. -/
def VALID_CATEGORIES : List String := CATEGORY_CONFIG.map Prod.fst

/-- Python `CATEGORY_CONFIG[category]`: raises `KeyError` on a missing
key. -/
def configFor (category : String) : Except String CategoryConfig :=
  match alget CATEGORY_CONFIG category with
  | some c => .ok c
  | none => .error ("KeyError: " ++ category)

/-- The classifier's safe default category. -/
def DEFAULT_CATEGORY : String := "shipping_or_delivery_question"

/-- `classify_message(message)` of `agents/router.py`, with the router
agent's `arun` call as the oracle argument: an exception from the call
propagates; unparseable content falls back to the default `RouterOutput`;
an out-of-set primary category is corrected in place to the default. -/
def classify_message (routerCall : CallResult RouterOutput) : Except String RouterOutput :=
  match routerCall with
  | .raises e => .error e
  | .unparseable => .ok { primary := DEFAULT_CATEGORY }
  | .returns r =>
      .ok (if VALID_CATEGORIES.contains r.primary then r
           else { r with primary := DEFAULT_CATEGORY })

/-- `CATEGORY_TO_SPECIALIST` of `agents/specialists.py` (the reverse
lookup built from `SPECIALIST_CONFIGS`). -/
def CATEGORY_TO_SPECIALIST : List (String × String) :=
  [ ("payment_question", "billing"),
    ("frequency_change_request", "billing"),
    ("skip_or_pause_request", "billing"),
    ("shipping_or_delivery_question", "shipping"),
    ("recipient_or_address_change", "shipping"),
    ("retention_primary_request", "retention"),
    ("retention_repeated_request", "retention"),
    ("damaged_or_leaking_item_report", "quality"),
    ("customization_request", "quality"),
    ("gratitude", "quality") ]

/-! ## `agents/outstanding.py` -/

/-- Structured output of the outstanding detector (`OutstandingOutput`).
`detect_outstanding` absorbs every failure internally (returning a
default), so the orchestrator sees it as a total call. -/
structure OutstandingOutput where
  is_outstanding : Bool := false
  trigger : String := "none"
  confidence : String := "high"
  deriving Repr, DecidableEq

/-! ## `agents/name_extractor.py` -/

/-- Whitespace-separated tokens of Python `str.split()` with no
argument: runs of non-whitespace characters, leading/trailing/repeated
whitespace discarded (never produces an empty token).  Each step
consumes at least one character, so fuel equal to the length never runs
out. -/
def wsTokensFuel : Nat → List Char → List (List Char)
  | 0, _ => []
  | _, [] => []
  | fuel + 1, c :: cs =>
      if isSpaceChar c then wsTokensFuel fuel cs
      else
        (c :: cs.takeWhile (fun d => !isSpaceChar d)) ::
          wsTokensFuel fuel (cs.dropWhile (fun d => !isSpaceChar d))

/-- Whitespace tokenisation of a character list. -/
def wsTokens (l : List Char) : List (List Char) :=
  wsTokensFuel l.length l

/-- Python `str.split()`. -/
def pySplitWs (s : String) : List String := (wsTokens s.data).map String.mk

/-- Python `str.strip(chars)`: drop characters of the set from both
ends. -/
def stripSet (p : Char → Bool) (l : List Char) : List Char :=
  ((l.dropWhile p).reverse.dropWhile p).reverse

/-- The punctuation set `".,!?:;\"'"` of `_clean_name`'s second
`strip`. -/
def isPunctChar (c : Char) : Bool :=
  c == '.' || c == ',' || c == '!' || c == '?' || c == ':' || c == ';'
    || c == '"' || c == Char.ofNat 0x27

/-- The character class `[A-Za-zÀ-ÿ'-]` of `_clean_name`'s validation
regex (codepoints: uppercase/lowercase ASCII letters, U+00C0-U+00FF,
apostrophe, hyphen). -/
def isNameChar (c : Char) : Bool :=
  decide ((65 ≤ c.toNat ∧ c.toNat ≤ 90) ∨ (97 ≤ c.toNat ∧ c.toNat ≤ 122)
    ∨ (192 ≤ c.toNat ∧ c.toNat ≤ 255) ∨ c.toNat = 39 ∨ c.toNat = 45)

/-- Python `str.capitalize()`: first character uppercased, the rest
lowercased (ASCII fold; the proofs only touch ASCII names). -/
def pyCapitalize : List Char → List Char
  | [] => []
  | c :: cs => c.toUpper :: cs.map Char.toLower

/-- Python `re.match(r"^[A-Za-zÀ-ÿ\'\-]{2,30}$", name)` as a predicate.
The class excludes the newline, so the match must cover the whole string
(2 to 30 class characters) — or, because `$` also matches just before a
single trailing newline, the whole string minus one trailing newline. -/
def nameMatch (l : List Char) : Bool :=
  (decide (2 ≤ l.length) && decide (l.length ≤ 30) && l.all isNameChar)
  || (match l.getLast? with
      | some c =>
          c == '\n' && decide (2 ≤ l.length - 1) && decide (l.length - 1 ≤ 30)
            && l.dropLast.all isNameChar
      | none => false)

/-- `_clean_name(raw)` of `agents/name_extractor.py`: reject a falsy
input, strip whitespace then the punctuation set, validate against the
name regex, and capitalize.  Returns `none` for an invalid name. -/
def clean_name (raw : String) : Option String :=
  if raw == "" then none
  else
    let name := stripSet isPunctChar (stripWs raw.data)
    if nameMatch name then some ⟨pyCapitalize name⟩ else none

/-- `extract_customer_name(message, contact_name)` of
`agents/name_extractor.py`.  The LLM path — everything inside the
function's `try`, with its `"Client"` fallback — absorbs its own
failures and is the total oracle argument `llmName`.  The contact fast
path is embedded from the source and sits *outside* that `try`: for a
truthy `contact_name`, `contact_name.split()[0]` raises `IndexError`
when the name is whitespace-only, and the exception propagates. -/
def extract_customer_name (llmName : String) (message : String)
    (contact_name : Option String) : Except String String :=
  let _ := message
  if optTruthy contact_name then
    match pySplitWs (contact_name.getD "") with
    | [] => .error "IndexError: list index out of range"
    | tok :: _ =>
        match clean_name tok with
        | some name => .ok name
        | none => .ok llmName
  else .ok llmName

/-! ## `agents/orchestrator.py` -/

/-- One turn of the conversation history returned by
`get_conversation_history` (a `{role, content}` row). -/
structure HistoryMsg where
  role : String
  content : String
  deriving Repr, DecidableEq

/-- One history line of `_build_context`: map the role, cap Agent turns
longer than 500 characters (only Agent turns are capped). -/
def renderTurn (m : HistoryMsg) : String :=
  let role := if m.role == "user" then "Customer" else "Agent"
  let content :=
    if role == "Agent" && m.content.length > 500
    then m.content.take 500 ++ "..." else m.content
  role ++ ": " ++ content

/-- `_build_context` (Stage 3): customer tags, optional history block,
blank line, raw message, joined with newlines.  The history list is the
result of the store read `get_conversation_history(session_id)` performed
inside this stage. -/
def build_context (customer_name : String) (customer_email : Option String)
    (history : List HistoryMsg) (message : String) : String :=
  let parts := ["[Customer Name: " ++ customer_name ++ "]"]
  let parts := parts ++
    (if optTruthy customer_email then
       ["[Customer Email: " ++ customer_email.getD "" ++ "]"]
     else [])
  let parts := parts ++
    (if history.isEmpty then []
     else [""] ++ ["[Conversation History]"] ++ history.map renderTurn ++ ["[End History]"])
  let parts := parts ++ [""] ++ [message]
  String.intercalate "\n" parts

/-- Metadata dictionary of a `PipelineResult`; absent keys are `none`.
Wall-clock time is outside the model, so `processing_time_ms` is embedded
as the constant `0` wherever the source stores an elapsed time. -/
structure RMeta where
  escalation_reason : Option String := none
  error : Option String := none
  model_used : Option String := none
  reasoning_effort : Option (Option String) := none
  processing_time_ms : Option Nat := none
  is_outstanding : Option Bool := none
  outstanding_trigger : Option String := none
  secondary_category : Option (Option String) := none
  customer_name : Option String := none
  eval_checks : Option (List EvalCheck) := none
  team_mode : Option Bool := none
  specialist : Option (Option String) := none
  attempts : Option Nat := none
  deriving Repr, DecidableEq

/-- `PipelineResult` of `agents/orchestrator.py`. -/
structure PipelineResult where
  response : String
  session_id : String
  category : String
  decision : String
  confidence : String
  actions_taken : List String := []
  actions_pending : List String := []
  metadata : RMeta := {}
  deriving Repr, DecidableEq

/-- The five Stage-7 writes of `_persist`, in source order. -/
inductive WriteKind where
  | session
  | outstandingUpd
  | msgUser
  | msgAssistant
  | evalRec
  deriving Repr, DecidableEq

/-- The write sequence of `_persist`. -/
def PERSIST_WRITES : List WriteKind :=
  [.session, .outstandingUpd, .msgUser, .msgAssistant, .evalRec]

/-- Run a sequence of writes against the store inside one `try` block:
the first raising write stops the sequence; the exception is caught (and
only logged).  Returns the successfully performed writes and the caught
error, if any. -/
def persist_go (store : WriteKind → Except String Unit) :
    List WriteKind → List WriteKind × Option String
  | [] => ([], none)
  | w :: ws =>
      match store w with
      | .ok _ =>
          let r := persist_go store ws
          (w :: r.1, r.2)
      | .error e => ([], some e)

/-- `_persist` (Stage 7): all five writes inside a single `try`/`except`;
never raises. -/
def persist_run (store : WriteKind → Except String Unit) :
    List WriteKind × Option String :=
  persist_go store PERSIST_WRITES

/-- The external collaborators of one `SupportOrchestrator.process`
invocation, made explicit.  `agentReply` is the support/specialist
agent's `arun` on the built input (it may raise); `outstanding` is the
(internally failure-absorbing) outstanding detector per attempt;
`llmNameResult` is the outcome of `extract_customer_name`'s LLM path
(which absorbs its own failures and falls back to `"Client"`) — the
contact fast path, which can raise, is embedded in
`extract_customer_name` itself; `history` is the store read
`get_conversation_history` (its own tests pin that it returns `[]` on
error rather than raising); `md5idx` is the stdlib hash value used by
the assembler. -/
structure Oracles where
  routerCall : CallResult RouterOutput
  llmNameResult : String
  history : List HistoryMsg
  agentReply : String → Except String String
  outstanding : Nat → OutstandingOutput
  cancelLink : Option String
  evalJudge : CallResult EvalGateOutput
  qaJudge : Nat → CallResult QAOutput
  md5idx : Nat
  store : WriteKind → Except String Unit

/-- The fixed Stage-1 deflection text. -/
def SAFETY_DEFLECTION : String :=
  "I'm connecting you with a support agent who can better assist you."

/-- The fixed Stage-4 generation-failure apology. -/
def PIPELINE_APOLOGY : String :=
  "I apologize, but I'm having trouble processing your request. " ++
    "Let me connect you with a support agent."

/-- The early result of `_check_safety` on a red-line hit. -/
def safety_result (session_id : String) (trigger : Option String) : PipelineResult :=
  { response := SAFETY_DEFLECTION
    session_id := session_id
    category := "unknown"
    decision := "escalate"
    confidence := "high"
    metadata := { escalation_reason := trigger, processing_time_ms := some 0 } }

/-- The early result of `_run_agent` when the support/specialist agent
raises. -/
def gen_failure_result (session_id category err : String) : PipelineResult :=
  { response := PIPELINE_APOLOGY
    session_id := session_id
    category := category
    decision := "escalate"
    confidence := "low"
    metadata := { error := some err } }

/-- `_post_process` (Stage 5): cancel-link splice for retention
categories with a truthy email, then assembly. -/
def post_process (cancelLink : Option String) (md5idx : Nat) (reply : String)
    (customer_email : Option String) (category customer_name session_id : String) : String :=
  let is_retention :=
    category == "retention_primary_request" || category == "retention_repeated_request"
  let r :=
    if is_retention && optTruthy customer_email then
      match cancelLink with
      | some url => inject_cancel_link reply url
      | none => reply
    else reply
  assemble_response md5idx r customer_name category session_id

/-- The evaluation fields `_evaluate` (Stage 6) writes into the context. -/
structure EvalFields where
  decision : String
  confidence : String
  checks : List EvalCheck
  override_reason : Option String
  feedback : Option String
  deriving Repr, DecidableEq

/-- `_evaluate` (Stage 6): the QA agent in team mode, the standard eval
gate otherwise.  In standard mode `qa_feedback` is never written. -/
def run_evaluate (evalJudge : CallResult EvalGateOutput)
    (qaJudge : Nat → CallResult QAOutput) (team : Bool)
    (message reply category : String)
    (outst : Bool) (tools : Option (List String)) (attempt : Nat)
    (prevFb : Option String) : EvalFields :=
  if team then
    let q := qa_evaluate (qaJudge attempt) message reply category outst tools attempt prevFb
    ⟨q.decision, q.confidence, q.checks, q.override_reason, q.feedback⟩
  else
    let e := evaluate_response evalJudge message reply category outst tools
    ⟨e.decision, e.confidence, e.checks, e.override_reason, none⟩

/-- `_build_result`: the final `PipelineResult` from the context. -/
def build_result (team : Bool) (specialist_key : Option String) (attempts : Nat)
    (config : CategoryConfig) (classification : RouterOutput)
    (customer_name session_id reply : String) (outst : OutstandingOutput)
    (ev : EvalFields) : PipelineResult :=
  { response := reply
    session_id := session_id
    category := classification.primary
    decision := ev.decision
    confidence := ev.confidence
    metadata :=
      { model_used := some config.model
        reasoning_effort := some config.reasoning_effort
        processing_time_ms := some 0
        is_outstanding := some outst.is_outstanding
        outstanding_trigger := some outst.trigger
        secondary_category := some classification.secondary
        customer_name := some customer_name
        eval_checks := some ev.checks
        team_mode := if team then some true else none
        specialist := if team then some specialist_key else none
        attempts := if team then some attempts else none } }

/-- The QA-feedback block appended to the agent input before the team-mode
retry (Python renders a `None` feedback as the string `"None"`). -/
def feedback_block (feedback : Option String) : String :=
  "\n\n[QA FEEDBACK — please revise your response]\n" ++ feedback.getD "None" ++
    "\n[End QA Feedback]"

/-- `SupportOrchestrator.process`: Stages 1-7 with the team-mode retry
loop, returning the result and the performed Stage-7 writes.  An
uncaught Python exception is the `.error` case; only Stage 2 can raise:
the router call, or the name-extraction fast path on a whitespace-only
truthy contact name (both awaited by `_classify`'s `gather`, which
re-raises; the model reports the router's exception first when both
fail, a choice immaterial to the claims).  A `KeyError` on an invalid
category is ruled out by `classify_message`'s correction. -/
def process (o : Oracles) (message session_id : String)
    (contact_email contact_name : Option String) (use_team_mode : Bool) :
    Except String (PipelineResult × List WriteKind) :=
  let red := check_red_lines message
  if red.is_flagged then
    .ok (safety_result session_id red.trigger, [])
  else
    match classify_message o.routerCall with
    | .error e => .error e
    | .ok classification =>
     match extract_customer_name o.llmNameResult message contact_name with
     | .error e => .error e
     | .ok customer_name =>
      let specialist_key :=
        if use_team_mode then alget CATEGORY_TO_SPECIALIST classification.primary else none
      let customer_email := pyOrStr contact_email classification.email
      let agent_input := build_context customer_name customer_email o.history message
      match o.agentReply agent_input with
      | .error e => .ok (gen_failure_result session_id classification.primary e, [])
      | .ok reply1 =>
        let out1 := o.outstanding 1
        let post1 :=
          post_process o.cancelLink o.md5idx reply1 customer_email
            classification.primary customer_name session_id
        match configFor classification.primary with
        | .error e => .error e
        | .ok config =>
          let tools := if config.tools.isEmpty then none else some config.tools
          let ev1 :=
            run_evaluate o.evalJudge o.qaJudge use_team_mode message post1
              classification.primary out1.is_outstanding tools 1 none
          if use_team_mode && ev1.decision == "refine" then
            let agent_input2 := agent_input ++ feedback_block ev1.feedback
            match o.agentReply agent_input2 with
            | .error e => .ok (gen_failure_result session_id classification.primary e, [])
            | .ok reply2 =>
              let out2 := o.outstanding 2
              let post2 :=
                post_process o.cancelLink o.md5idx reply2 customer_email
                  classification.primary customer_name session_id
              let ev2 :=
                run_evaluate o.evalJudge o.qaJudge use_team_mode message post2
                  classification.primary out2.is_outstanding tools 2 ev1.feedback
              let writes := persist_run o.store
              .ok (build_result use_team_mode specialist_key 2 config classification
                     customer_name session_id post2 out2 ev2, writes.1)
          else
            let writes := persist_run o.store
            .ok (build_result use_team_mode specialist_key 1 config classification
                   customer_name session_id post1 out1 ev1, writes.1)

/-- The returned `PipelineResult` alone. -/
def processResult (o : Oracles) (message session_id : String)
    (contact_email contact_name : Option String) (use_team_mode : Bool) :
    Except String PipelineResult :=
  (process o message session_id contact_email contact_name use_team_mode).map Prod.fst

/-! ## `api/routes.py` — webhook dedup cache and bridge -/

/-- The in-memory `_processed_messages: dict[int, float]` as an
insertion-ordered association list from message id to timestamp.
Timestamps are embedded as integers (seconds); the TTL comparisons only
use the ordered-field structure of `time.time()` values. -/
abbrev DedupMap := List (Int × Int)

/-- `_DEDUP_TTL_SECONDS = 300`. -/
def DEDUP_TTL_SECONDS : Int := 300

/-- Dict key lookup. -/
def dlookup (m : DedupMap) (k : Int) : Option Int :=
  (m.find? (fun kv => kv.1 == k)).map Prod.snd

/-- The lazy eviction of `_is_duplicate`: delete every entry with
`now - v > _DEDUP_TTL_SECONDS` (order of the survivors is preserved, as
for a Python dict). -/
def prune (now : Int) (m : DedupMap) : DedupMap :=
  m.filter (fun kv => !(now - kv.2 > DEDUP_TTL_SECONDS))

/-- `_is_duplicate(message_id)` at time `now` over cache state `m`:
prune stale entries, then report membership, inserting the id on a
miss.  Returns the verdict and the new state. -/
def is_duplicate (message_id : Int) (now : Int) (m : DedupMap) : Bool × DedupMap :=
  let pruned := prune now m
  match dlookup pruned message_id with
  | some _ => (true, pruned)
  | none => (false, pruned ++ [(message_id, now)])

/-- `ChatwootWebhookPayload` (the fields the handler reads). -/
structure ChatwootPayload where
  event : String
  id : Option Int := none
  content : Option String := none
  message_type : Option String := none
  private_note : Bool := false
  sender_email : Option String := none
  sender_name : Option String := none
  conversation : Option Int := none
  deriving Repr, DecidableEq

/-- The contact block of the `ChatRequest` the bridge builds. -/
structure ContactInfo where
  email : Option String := none
  name : Option String := none
  deriving Repr, DecidableEq

/-- What `chatwoot_webhook` does with a payload before any pipeline or
outbound call: acknowledge-and-drop, report a duplicate, reject a
missing conversation id, or forward a built request to the `chat`
pipeline. -/
inductive WebhookOutcome where
  | ignored (reason : String)
  | duplicate (message_id : Int)
  | noConversation
  | piped (message : String) (conversation_id : Int) (contact : Option ContactInfo)
  deriving Repr, DecidableEq

/-- Python truthiness of the optional numeric `payload.id` (`None` and
`0` are falsy). -/
def idTruthy (i : Option Int) : Bool :=
  match i with
  | some v => !(v == 0)
  | none => false

/-- The guard chain of `chatwoot_webhook` down to the `chat(...)` call,
with the dedup cache threaded through: event filter, message-type
filter, empty-content filter, private filter, duplicate check (only for
a truthy id), conversation check, then forward. -/
def chatwoot_webhook (p : ChatwootPayload) (now : Int) (m : DedupMap) :
    WebhookOutcome × DedupMap :=
  if !(p.event == "message_created") then
    (.ignored ("event=" ++ p.event), m)
  else if !(p.message_type == some "incoming") then
    (.ignored "not incoming message", m)
  else
    match p.content with
    | none => (.ignored "empty content", m)
    | some c =>
      if c == "" || stripS c == "" then (.ignored "empty content", m)
      else if p.private_note then (.ignored "private note", m)
      else
        let step :=
          if idTruthy p.id then
            let r := is_duplicate (p.id.getD 0) now m
            (some r.1, r.2)
          else (none, m)
        match step with
        | (some true, m2) => (.duplicate (p.id.getD 0), m2)
        | (_, m2) =>
          match p.conversation with
          | none => (.noConversation, m2)
          | some cid =>
            if cid == 0 then (.noConversation, m2)
            else
              let contact :=
                if optTruthy p.sender_email || optTruthy p.sender_name then
                  some { email := p.sender_email, name := p.sender_name }
                else none
              (.piped c cid contact, m2)

/-! ## Theorems -/

/-- C6: a red-line message terminates at Stage 1 with the fixed deflection
text, category "unknown" and decision "escalate"; the result is the same
for every oracle bundle, so no classification, generation or evaluation
collaborator can influence (or be needed for) it, and no Stage-7 write is
performed. -/
theorem safety_flag_isolation (o : Oracles) (message session_id : String)
    (ce cn : Option String) (tm : Bool)
    (h : (check_red_lines message).is_flagged = true) :
    process o message session_id ce cn tm =
      .ok (safety_result session_id (check_red_lines message).trigger, [])
    ∧ (safety_result session_id (check_red_lines message).trigger).decision = "escalate"
    ∧ (safety_result session_id (check_red_lines message).trigger).category = "unknown"
    ∧ (safety_result session_id (check_red_lines message).trigger).response =
        SAFETY_DEFLECTION := by
  refine ⟨?_, rfl, rfl, rfl⟩
  unfold process
  simp [h]

/-- Witness for C6: scenario A of the spec, run at one concrete oracle
bundle and in both modes of the orchestrator. -/
theorem safety_flag_isolation_witness :
    (check_red_lines "I will kill you if you don't refund me").is_flagged = true
    ∧ process
        { routerCall := .unparseable, llmNameResult := "Client", history := [],
          agentReply := fun _ => .ok "ok", outstanding := fun _ => {},
          cancelLink := none, evalJudge := .unparseable,
          qaJudge := fun _ => .unparseable, md5idx := 0, store := fun _ => .ok () }
        "I will kill you if you don't refund me" "sess_w6" none none false =
      .ok (safety_result "sess_w6"
            (check_red_lines "I will kill you if you don't refund me").trigger, []) :=
  ⟨by decide,
   (safety_flag_isolation
     { routerCall := .unparseable, llmNameResult := "Client", history := [],
       agentReply := fun _ => .ok "ok", outstanding := fun _ => {},
       cancelLink := none, evalJudge := .unparseable,
       qaJudge := fun _ => .unparseable, md5idx := 0, store := fun _ => .ok () }
     "I will kill you if you don't refund me" "sess_w6" none none false
     (by decide)).1⟩

/-- C2: a reply that hits the Tier-1 forbidden table makes
`evaluate_response` return decision "draft" (not "escalate"), confidence
"high", exactly one failing Check named "safety" with score 0 and an
override reason naming the violation — for every judge oracle, i.e. the
Tier-2 semantic judge is never consulted. -/
theorem evalgate_tier1_shortcircuit (judge : CallResult EvalGateOutput)
    (msg reply cat : String) (outst : Bool) (tools : Option (List String)) (v : String)
    (h : fast_safety_check reply = (false, some v)) :
    evaluate_response judge msg reply cat outst tools =
      { decision := "draft", confidence := "high",
        checks := [{ name := "safety", passed := false, score := 0,
                     detail := "Regex safety violation: " ++ v }],
        override_reason := some ("Fast-fail regex: " ++ v) } := by
  unfold evaluate_response
  rw [h]
  rfl

/-- Witness for C2: scenario B of the spec; the judge oracle is a
stubbed "send" verdict and is ignored. -/
theorem evalgate_tier1_shortcircuit_witness :
    fast_safety_check "I have cancelled your subscription." =
      (false, some "confirmed_cancellation")
    ∧ evaluate_response (.returns { decision := "send" }) "Cancel my box."
        "I have cancelled your subscription." "retention_primary_request" false none =
      { decision := "draft", confidence := "high",
        checks := [{ name := "safety", passed := false, score := 0,
                     detail := "Regex safety violation: " ++ "confirmed_cancellation" }],
        override_reason := some ("Fast-fail regex: " ++ "confirmed_cancellation") } :=
  ⟨by decide,
   evalgate_tier1_shortcircuit (.returns { decision := "send" }) "Cancel my box."
     "I have cancelled your subscription." "retention_primary_request" false none
     "confirmed_cancellation" (by decide)⟩

/-- C5 counterexample: the QA gate's Tier-1 deterministic scan is the
unchanged standard table — it has no confirmed-damage-resolution entry.
A reply confirming a specific damage resolution passes Tier 1, and
`qa_evaluate` then *does* consult the semantic judge (two different judge
oracles give different outputs on it). -/
theorem qa_tier1_lacks_damage_rule :
    fast_safety_check "I have arranged a replacement for your damaged box." = (true, none)
    ∧ UNSAFE_RESPONSE_PATTERNS.map Prod.snd =
        ["confirmed_cancellation", "confirmed_cancellation", "confirmed_pause",
         "confirmed_pause", "confirmed_refund", "confirmed_refund"]
    ∧ qa_evaluate (.raises "judge offline") "My box arrived broken."
        "I have arranged a replacement for your damaged box."
        "damaged_or_leaking_item_report" false none 1 none ≠
      qa_evaluate (.returns { decision := "send" }) "My box arrived broken."
        "I have arranged a replacement for your damaged box."
        "damaged_or_leaking_item_report" false none 1 none :=
  ⟨by decide, by decide, by decide⟩

/-- C5 as amended: `qa_evaluate`'s Tier-1 scan is exactly the standard
gate's `fast_safety_check` table — any hit fast-fails with the standard
output for every judge oracle — and that scan can only ever report the
three standard violation names, never a confirmed-damage-resolution one
(that rule lives only in the QA gate's Tier-2 instructions). -/
theorem qa_tier1_equals_standard_table (judge : CallResult QAOutput)
    (msg reply cat : String) (outst : Bool) (tools : Option (List String))
    (attempt : Nat) (fb : Option String) (v : String)
    (h : fast_safety_check reply = (false, some v)) :
    qa_evaluate judge msg reply cat outst tools attempt fb =
      { decision := "draft", confidence := "high",
        checks := [{ name := "safety", passed := false, score := 0,
                     detail := "Regex safety violation: " ++ v }],
        override_reason := some ("Fast-fail regex: " ++ v) }
    ∧ ∀ r : String, (fast_safety_check r).2 ≠ some "confirmed_damage_resolution" := by
  constructor
  · unfold qa_evaluate
    rw [h]
    rfl
  · intro r
    unfold fast_safety_check
    cases hf : UNSAFE_RESPONSE_PATTERNS.find? (fun pv => rsearch false pv.1 ((lowerS r).data)) with
    | none => simp [hf]
    | some pv =>
      have hmem : pv ∈ UNSAFE_RESPONSE_PATTERNS := List.mem_of_find?_eq_some hf
      have hsnd : pv.2 ∈ UNSAFE_RESPONSE_PATTERNS.map Prod.snd :=
        List.mem_map_of_mem Prod.snd hmem
      have htab : UNSAFE_RESPONSE_PATTERNS.map Prod.snd =
          ["confirmed_cancellation", "confirmed_cancellation", "confirmed_pause",
           "confirmed_pause", "confirmed_refund", "confirmed_refund"] := by decide
      rw [htab] at hsnd
      simp only [List.mem_cons, List.mem_singleton, List.not_mem_nil, or_false] at hsnd
      rcases hsnd with h1 | h1 | h1 | h1 | h1 | h1 <;> simp [hf, h1]

/-- A key absent from a dict stays absent after filtering. -/
theorem dlookup_filter_none (m : DedupMap) (p : Int × Int → Bool) (k : Int)
    (h : dlookup m k = none) : dlookup (m.filter p) k = none := by
  unfold dlookup at h ⊢
  rw [Option.map_eq_none'] at h ⊢
  rw [List.find?_eq_none] at h ⊢
  intro kv hkv
  exact h kv (List.mem_of_mem_filter hkv)

/-- Lookup walks past an id-free front segment. -/
theorem dlookup_append (m₁ m₂ : DedupMap) (k : Int) (h : dlookup m₁ k = none) :
    dlookup (m₁ ++ m₂) k = dlookup m₂ k := by
  unfold dlookup at h ⊢
  rw [List.find?_append]
  rw [Option.map_eq_none'] at h
  rw [h]
  rfl

/-- Eviction distributes over dict concatenation. -/
theorem prune_append (n : Int) (a b : DedupMap) :
    prune n (a ++ b) = prune n a ++ prune n b := by
  unfold prune
  exact List.filter_append _ _

/-- Eviction never creates a cached id. -/
theorem prune_fresh (n : Int) (m : DedupMap) (k : Int) (h : dlookup m k = none) :
    dlookup (prune n m) k = none :=
  dlookup_filter_none m _ k h

/-- C7: the TTL contract of the dedup cache's seen-operation
(`_is_duplicate`): starting from any state in which the id is not cached,
the first call returns false; a second call on the same id within the
300-second TTL returns true; a call on a different (uncached) id returns
false; and once strictly more than the TTL has elapsed since the insert, a
call on the same id returns false again (the entry was evicted on
lookup). -/
theorem dedup_seen_ttl_contract (st : DedupMap) (mid id2 n1 n2 n3 : Int)
    (hfresh : dlookup st mid = none) (hfresh2 : dlookup st id2 = none)
    (hne : id2 ≠ mid) (hwithin : n2 - n1 ≤ DEDUP_TTL_SECONDS)
    (hafter : n3 - n1 > DEDUP_TTL_SECONDS) :
    (is_duplicate mid n1 st).1 = false
    ∧ (is_duplicate mid n2 (is_duplicate mid n1 st).2).1 = true
    ∧ (is_duplicate id2 n2 (is_duplicate mid n1 st).2).1 = false
    ∧ (is_duplicate mid n3 (is_duplicate mid n1 st).2).1 = false := by
  have hwithin' : n2 - n1 ≤ 300 := hwithin
  have hafter' : n3 - n1 > 300 := hafter
  have h1 : dlookup (prune n1 st) mid = none := prune_fresh n1 st mid hfresh
  have e1 : is_duplicate mid n1 st = (false, prune n1 st ++ [(mid, n1)]) := by
    simp [is_duplicate, h1]
  have hsurvive : prune n2 [(mid, n1)] = [(mid, n1)] := by
    have hc : (!(n2 - n1 > DEDUP_TTL_SECONDS)) = true := by
      simp [DEDUP_TTL_SECONDS]
      omega
    simp [prune, List.filter_cons, hc]
  have hgone : prune n3 [(mid, n1)] = [] := by
    have hc : (!(n3 - n1 > DEDUP_TTL_SECONDS)) = false := by
      simp [DEDUP_TTL_SECONDS]
      omega
    simp [prune, List.filter_cons, hc]
  have hself : dlookup [(mid, n1)] mid = some n1 := by
    simp [dlookup, List.find?]
  have hmne : (mid == id2) = false := by
    rw [beq_eq_false_iff_ne]
    exact fun hc => hne hc.symm
  have hother : dlookup [(mid, n1)] id2 = none := by
    simp [dlookup, List.find?, hmne]
  refine ⟨by rw [e1], ?_, ?_, ?_⟩
  · have hl : dlookup (prune n2 (prune n1 st ++ [(mid, n1)])) mid = some n1 := by
      rw [prune_append]
      rw [dlookup_append _ _ _ (prune_fresh n2 _ _ h1)]
      rw [hsurvive, hself]
    rw [e1]
    simp [is_duplicate, hl]
  · have h2 : dlookup (prune n1 st) id2 = none := prune_fresh n1 st id2 hfresh2
    have hl : dlookup (prune n2 (prune n1 st ++ [(mid, n1)])) id2 = none := by
      rw [prune_append]
      rw [dlookup_append _ _ _ (prune_fresh n2 _ _ h2)]
      rw [hsurvive, hother]
    rw [e1]
    simp [is_duplicate, hl]
  · have hl : dlookup (prune n3 (prune n1 st ++ [(mid, n1)])) mid = none := by
      rw [prune_append]
      rw [dlookup_append _ _ _ (prune_fresh n3 _ _ h1)]
      rw [hgone]
      rfl
    rw [e1]
    simp [is_duplicate, hl]

/-- Witness for C7: the contract run from the empty cache at concrete
times 0, 100 and 301. -/
theorem dedup_seen_ttl_contract_witness :
    (is_duplicate 1 0 []).1 = false
    ∧ (is_duplicate 1 100 (is_duplicate 1 0 []).2).1 = true
    ∧ (is_duplicate 2 100 (is_duplicate 1 0 []).2).1 = false
    ∧ (is_duplicate 1 301 (is_duplicate 1 0 []).2).1 = false :=
  dedup_seen_ttl_contract [] 1 2 0 100 301 (by decide) (by decide) (by decide)
    (by decide) (by decide)

/-- C10: deduplication applies only to payloads whose message id is a
truthy (non-zero) integer.  For an otherwise-processable
`message_created` event whose id is `None` or `0`, the duplicate check is
bypassed entirely: the event is forwarded to the pipeline and the cache
state is left untouched — so a second identical delivery within the TTL
is forwarded as well (the conclusion holds for every `now` and every
cache state, in particular for the state after the first delivery). -/
theorem webhook_dedup_bypass_on_falsy_id (p : ChatwootPayload) (now : Int)
    (m : DedupMap) (c : String) (cid : Int)
    (he : p.event = "message_created") (hm : p.message_type = some "incoming")
    (hc : p.content = some c) (hcs : ¬ stripS c = "")
    (hp : p.private_note = false)
    (hid : p.id = none ∨ p.id = some 0)
    (hconv : p.conversation = some cid) (hcid : ¬ cid = 0) :
    chatwoot_webhook p now m =
      (.piped c cid
        (if optTruthy p.sender_email || optTruthy p.sender_name then
           some { email := p.sender_email, name := p.sender_name } else none), m) := by
  have hcne : c ≠ "" := by
    intro h
    exact hcs (by rw [h]; rfl)
  have hb1 : (c == "") = false := by rw [beq_eq_false_iff_ne]; exact hcne
  have hb2 : (stripS c == "") = false := by rw [beq_eq_false_iff_ne]; exact hcs
  have hb3 : (cid == 0) = false := by rw [beq_eq_false_iff_ne]; exact hcid
  have hidt : idTruthy p.id = false := by
    rcases hid with hid | hid <;> simp [idTruthy, hid]
  unfold chatwoot_webhook
  rw [he, hm, hc, hp, hconv]
  simp [hb1, hb2, hb3, hidt]

/-- Witness for C10: a payload with id `0` delivered twice over a
non-empty cache; both deliveries reach the pipeline and the cache never
changes. -/
theorem webhook_dedup_bypass_on_falsy_id_witness :
    chatwoot_webhook
      { event := "message_created", id := some 0, content := some "Hello there",
        message_type := some "incoming", private_note := false,
        conversation := some 5 } 50 [(7, 10)] =
      (.piped "Hello there" 5
        (if optTruthy (none : Option String) || optTruthy (none : Option String) then
           some { email := none, name := none } else none), [(7, 10)]) :=
  webhook_dedup_bypass_on_falsy_id
    { event := "message_created", id := some 0, content := some "Hello there",
      message_type := some "incoming", private_note := false,
      conversation := some 5 } 50 [(7, 10)] "Hello there" 5
    rfl rfl rfl (by decide) rfl (Or.inr rfl) rfl (by decide)

/-- C4 counterexample: the five Stage-7 writes are not independent — they
run sequentially inside one `try` block, so a failure of the session
write aborts all four sibling writes (none is attempted), and a failure
of the third write skips the remaining two. -/
theorem persist_session_failure_aborts_siblings :
    persist_run (fun w => if w = WriteKind.session then .error "db down" else .ok ()) =
      ([], some "db down")
    ∧ WriteKind.outstandingUpd ∉
        (persist_run (fun w => if w = WriteKind.session then .error "db down" else .ok ())).1
    ∧ persist_run (fun w => if w = WriteKind.msgUser then .error "insert failed" else .ok ()) =
        ([WriteKind.session, WriteKind.outstandingUpd], some "insert failed") :=
  ⟨rfl, by decide, rfl⟩

/-- C4 as amended: Stage-7 persistence is best-effort — the five writes
run sequentially inside a single guard; any failure is caught (never
re-raised), never changes the already-computed pipeline result (the
returned `PipelineResult` is the same for every store oracle), and skips
the writes that follow it; when every write succeeds all five are
performed. -/
theorem persist_best_effort (o : Oracles) (s s' : WriteKind → Except String Unit)
    (msg sid : String) (ce cn : Option String) (tm : Bool) :
    processResult { o with store := s } msg sid ce cn tm =
      processResult { o with store := s' } msg sid ce cn tm
    ∧ (∀ (st : WriteKind → Except String Unit) (e : String),
        st WriteKind.session = .error e → persist_run st = ([], some e))
    ∧ (∀ st : WriteKind → Except String Unit, (∀ w, st w = .ok ()) →
        persist_run st = (PERSIST_WRITES, none)) := by
  refine ⟨?_, ?_, ?_⟩
  · unfold processResult process
    dsimp only
    repeat' first
      | rfl
      | split
  · intro st e h
    simp [persist_run, persist_go, PERSIST_WRITES, h]
  · intro st h
    simp [persist_run, persist_go, PERSIST_WRITES, h WriteKind.session,
      h WriteKind.outstandingUpd, h WriteKind.msgUser, h WriteKind.msgAssistant,
      h WriteKind.evalRec]

/-- Witness for C4's amended theorem at a concrete oracle bundle, a
failing store and an all-ok store. -/
theorem persist_best_effort_witness :
    (processResult
        { routerCall := .unparseable, llmNameResult := "Client", history := [],
          agentReply := fun _ => .ok "All good.", outstanding := fun _ => {},
          cancelLink := none, evalJudge := .returns { decision := "send" },
          qaJudge := fun _ => .unparseable, md5idx := 0,
          store := fun w => if w = WriteKind.session then .error "db down" else .ok () }
        "Where is my package?" "s1" none none false =
      processResult
        { routerCall := .unparseable, llmNameResult := "Client", history := [],
          agentReply := fun _ => .ok "All good.", outstanding := fun _ => {},
          cancelLink := none, evalJudge := .returns { decision := "send" },
          qaJudge := fun _ => .unparseable, md5idx := 0,
          store := fun _ => .ok () }
        "Where is my package?" "s1" none none false)
    ∧ persist_run (fun w => if w = WriteKind.session then .error "db down" else .ok ()) =
        ([], some "db down")
    ∧ persist_run (fun _ => .ok ()) = (PERSIST_WRITES, none) := by
  have h := persist_best_effort
    { routerCall := .unparseable, llmNameResult := "Client", history := [],
      agentReply := fun _ => .ok "All good.", outstanding := fun _ => {},
      cancelLink := none, evalJudge := .returns { decision := "send" },
      qaJudge := fun _ => .unparseable, md5idx := 0,
      store := fun _ => .ok () }
    (fun w => if w = WriteKind.session then .error "db down" else .ok ())
    (fun _ => .ok ()) "Where is my package?" "s1" none none false
  exact ⟨h.1, h.2.1 _ "db down" rfl, h.2.2 _ (fun _ => rfl)⟩

/-- An if-expression whose branches both return `.ok` returns `.ok`. -/
theorem exists_ok_ite {α β : Type} {c : Prop} [Decidable c] {x y : Except α β}
    (hx : ∃ v, x = .ok v) (hy : ∃ v, y = .ok v) :
    ∃ v, (if c then x else y) = .ok v := by
  by_cases h : c
  · rw [if_pos h]; exact hx
  · rw [if_neg h]; exact hy

/-- A key listed among an association list's keys has a value. -/
theorem alget_isSome_of_mem_keys {α : Type} (m : List (String × α)) (k : String)
    (h : k ∈ m.map Prod.fst) : ∃ v, alget m k = some v := by
  induction m with
  | nil => simp at h
  | cons kv rest ih =>
    rw [List.map_cons, List.mem_cons] at h
    by_cases hk : kv.1 == k
    · exact ⟨kv.2, by simp [alget, List.find?, hk]⟩
    · have hkne : k ≠ kv.1 := fun hh => by simp [hh] at hk
      have h2 : k ∈ rest.map Prod.fst := h.resolve_left hkne
      rcases ih h2 with ⟨v, hv⟩
      refine ⟨v, ?_⟩
      simpa [alget, List.find?, hk] using hv

/-- The classifier correction (`router.py`) guarantees the returned
primary category has a `CATEGORY_CONFIG` entry, so the `dict[...]`
lookups of Stages 6-7 cannot raise `KeyError`. -/
theorem classify_message_valid (rc : CallResult RouterOutput) (c : RouterOutput)
    (h : classify_message rc = .ok c) : ∃ cfg, configFor c.primary = .ok cfg := by
  have base : ∀ r : RouterOutput, r.primary ∈ CATEGORY_CONFIG.map Prod.fst →
      ∃ cfg, configFor r.primary = .ok cfg := by
    intro r hmem
    rcases alget_isSome_of_mem_keys CATEGORY_CONFIG r.primary hmem with ⟨v, hv⟩
    exact ⟨v, by simp [configFor, hv]⟩
  cases rc with
  | raises e => exact absurd h (by simp [classify_message])
  | unparseable =>
    simp only [classify_message, Except.ok.injEq] at h
    subst h
    exact base _ (by decide)
  | returns r =>
    simp only [classify_message, Except.ok.injEq] at h
    subst h
    by_cases hv : VALID_CATEGORIES.contains r.primary
    · rw [if_pos hv]
      exact base r (List.mem_of_elem_eq_true hv)
    · rw [if_neg hv]
      apply base
      show DEFAULT_CATEGORY ∈ CATEGORY_CONFIG.map Prod.fst
      decide

/-- C1 counterexample: `SupportOrchestrator.process` has no
orchestrator-boundary catch — an exception raised by the Stage-2 router
call propagates to the caller instead of being converted into an
escalate result. -/
theorem process_raises_on_stage2_classifier_failure :
    processResult
      { routerCall := .raises "classifier unavailable", llmNameResult := "Client",
        history := [], agentReply := fun _ => .ok "ok", outstanding := fun _ => {},
        cancelLink := none, evalJudge := .unparseable, qaJudge := fun _ => .unparseable,
        md5idx := 0, store := fun _ => .ok () }
      "Where is my package?" "s1" none none false = .error "classifier unavailable" := by
  rfl

/-- C1 as amended: only Stage 2 can raise out of `process` — the router
call, or the name-extraction contact fast path (whose `split()[0]`
raises `IndexError` on a whitespace-only truthy contact name, outside
its `try`).  Given the router call does not raise: (1) if name
extraction does not raise either, `process` never raises — every other
internal failure is absorbed (Stage-4 generation failures are caught
and converted; judge failures degrade inside the gates; persistence
failures are logged; Stage 1 and result construction are total); (2)
when generation raises, the returned result is the fixed-apology
escalate result with the error recorded in metadata; (3) a
whitespace-only truthy contact name makes `process` propagate the
`IndexError` uncaught. -/
theorem process_total_when_classifier_succeeds (o : Oracles) (msg sid : String)
    (ce cn : Option String) (tm : Bool)
    (hcl : ∀ e, o.routerCall ≠ .raises e) :
    ((∀ e, extract_customer_name o.llmNameResult msg cn ≠ .error e) →
      ∃ rw, process o msg sid ce cn tm = .ok rw)
    ∧ (∀ cfied nm err, (check_red_lines msg).is_flagged = false →
        classify_message o.routerCall = .ok cfied →
        extract_customer_name o.llmNameResult msg cn = .ok nm →
        o.agentReply (build_context nm (pyOrStr ce cfied.email) o.history msg) =
          .error err →
        processResult o msg sid ce cn tm = .ok (gen_failure_result sid cfied.primary err)
        ∧ (gen_failure_result sid cfied.primary err).decision = "escalate"
        ∧ (gen_failure_result sid cfied.primary err).metadata.error = some err)
    ∧ ((check_red_lines msg).is_flagged = false →
        optTruthy cn = true → pySplitWs (cn.getD "") = [] →
        process o msg sid ce cn tm = .error "IndexError: list index out of range") := by
  refine ⟨?_, ?_, ?_⟩
  · intro hname
    by_cases hred : (check_red_lines msg).is_flagged
    · exact ⟨(safety_result sid (check_red_lines msg).trigger, []),
        by unfold process; simp [hred]⟩
    · obtain ⟨c, hc⟩ : ∃ c, classify_message o.routerCall = .ok c := by
        cases hrc : o.routerCall with
        | raises e => exact absurd hrc (hcl e)
        | unparseable => exact ⟨_, rfl⟩
        | returns r => exact ⟨_, rfl⟩
      obtain ⟨nm, hnm⟩ : ∃ nm, extract_customer_name o.llmNameResult msg cn = .ok nm := by
        cases hx : extract_customer_name o.llmNameResult msg cn with
        | error e => exact absurd hx (hname e)
        | ok nm => exact ⟨nm, rfl⟩
      obtain ⟨cfg, hcfg⟩ := classify_message_valid _ _ hc
      unfold process
      rw [if_neg hred, hc]
      dsimp only
      rw [hnm]
      dsimp only
      cases hag : o.agentReply (build_context nm (pyOrStr ce c.email) o.history msg) with
      | error e => exact ⟨_, rfl⟩
      | ok reply1 =>
        rw [hcfg]
        dsimp only
        apply exists_ok_ite
        · cases o.agentReply _ with
          | error e => exact ⟨_, rfl⟩
          | ok reply2 => exact ⟨_, rfl⟩
        · exact ⟨_, rfl⟩
  · intro cfied nm err hred hc hnm hag
    refine ⟨?_, rfl, rfl⟩
    unfold processResult process
    rw [if_neg (by simp [hred]), hc]
    dsimp only
    rw [hnm]
    dsimp only
    rw [hag]
    rfl
  · intro hred hws hsplit
    have hext : extract_customer_name o.llmNameResult msg cn =
        .error "IndexError: list index out of range" := by
      unfold extract_customer_name
      rw [if_pos hws, hsplit]
    obtain ⟨c, hc⟩ : ∃ c, classify_message o.routerCall = .ok c := by
      cases hrc : o.routerCall with
      | raises e => exact absurd hrc (hcl e)
      | unparseable => exact ⟨_, rfl⟩
      | returns r => exact ⟨_, rfl⟩
    unfold process
    rw [if_neg (by simp [hred]), hc]
    dsimp only
    rw [hext]

/-- Witness for C1's amended theorem: with no contact name, a classifier
that answers (unparseable content, corrected to the default category)
and a generator that raises, the pipeline returns the apology escalate
result; with a whitespace-only contact name it raises `IndexError`. -/
theorem process_total_when_classifier_succeeds_witness :
    (∃ rw, process
        { routerCall := .unparseable, llmNameResult := "Client", history := [],
          agentReply := fun _ => .error "LLM timeout", outstanding := fun _ => {},
          cancelLink := none, evalJudge := .unparseable, qaJudge := fun _ => .unparseable,
          md5idx := 0, store := fun _ => .ok () }
        "Where is my package?" "s1" none none false = .ok rw)
    ∧ processResult
        { routerCall := .unparseable, llmNameResult := "Client", history := [],
          agentReply := fun _ => .error "LLM timeout", outstanding := fun _ => {},
          cancelLink := none, evalJudge := .unparseable, qaJudge := fun _ => .unparseable,
          md5idx := 0, store := fun _ => .ok () }
        "Where is my package?" "s1" none none false =
      .ok (gen_failure_result "s1" "shipping_or_delivery_question" "LLM timeout")
    ∧ process
        { routerCall := .unparseable, llmNameResult := "Client", history := [],
          agentReply := fun _ => .error "LLM timeout", outstanding := fun _ => {},
          cancelLink := none, evalJudge := .unparseable, qaJudge := fun _ => .unparseable,
          md5idx := 0, store := fun _ => .ok () }
        "Where is my package?" "s1" none (some " ") false =
      .error "IndexError: list index out of range" := by
  have h := process_total_when_classifier_succeeds
    { routerCall := .unparseable, llmNameResult := "Client", history := [],
      agentReply := fun _ => .error "LLM timeout", outstanding := fun _ => {},
      cancelLink := none, evalJudge := .unparseable, qaJudge := fun _ => .unparseable,
      md5idx := 0, store := fun _ => .ok () }
    "Where is my package?" "s1" none none false
    (by intro e h; cases h)
  have h2 := process_total_when_classifier_succeeds
    { routerCall := .unparseable, llmNameResult := "Client", history := [],
      agentReply := fun _ => .error "LLM timeout", outstanding := fun _ => {},
      cancelLink := none, evalJudge := .unparseable, qaJudge := fun _ => .unparseable,
      md5idx := 0, store := fun _ => .ok () }
    "Where is my package?" "s1" none (some " ") false
    (by intro e h; cases h)
  refine ⟨h.1 (by intro e hx; simp [extract_customer_name, optTruthy] at hx), ?_, ?_⟩
  · exact (h.2.1 { primary := DEFAULT_CATEGORY } "Client" "LLM timeout"
      (by decide) rfl rfl rfl).1
  · exact h2.2.2 (by decide) (by decide) (by decide)

/-- The outstanding-case coercion of the standard gate can only produce
"draft" or pass the decision through. -/
theorem eval_coerce_no_refine (outst : Bool) (out : EvalGateOutput)
    (h : out.decision ≠ "refine") : (eval_coerce outst out).decision ≠ "refine" := by
  unfold eval_coerce
  by_cases hc : (outst && out.decision == "send" && out.confidence != "high") = true
  · rw [if_pos hc]
    simp
  · rw [if_neg hc]
    exact h

/-- The QA coercions on a retry (attempt 2) never let "refine" through. -/
theorem qa_coerce_retry_no_refine (outst : Bool) (out : QAOutput) :
    (qa_coerce 2 outst out).decision ≠ "refine" := by
  unfold qa_coerce
  dsimp only
  by_cases hd : (2 > 1 && out.decision == "refine") = true
  · rw [if_pos hd]
    by_cases hc :
        (outst && ({ out with
            decision := "draft"
            override_reason :=
              some "Refine not allowed on retry — forced to draft" } : QAOutput).decision
              == "send"
          && ({ out with
              decision := "draft"
              override_reason :=
                some "Refine not allowed on retry — forced to draft" } : QAOutput).confidence
              != "high") = true
    · rw [if_pos hc]
      simp
    · rw [if_neg hc]
      simp
  · rw [if_neg hd]
    by_cases hc : (outst && out.decision == "send" && out.confidence != "high") = true
    · rw [if_pos hc]
      simp
    · rw [if_neg hc]
      intro hh
      apply hd
      simp [hh]

/-- The standard eval gate never outputs "refine" when its judge honours
the documented decision range {send, draft, escalate}: every internal
path (Tier-1 fast-fail, judge error, parse error, outstanding coercion)
produces "draft", and the pass-through path is covered by the range. -/
theorem evaluate_response_no_refine (judge : CallResult EvalGateOutput)
    (msg reply cat : String) (outst : Bool) (tools : Option (List String))
    (hj : ∀ out, judge = .returns out → out.decision ≠ "refine") :
    (evaluate_response judge msg reply cat outst tools).decision ≠ "refine" := by
  unfold evaluate_response
  dsimp only
  rcases hf : fast_safety_check reply with ⟨isSafe, viol⟩
  cases isSafe with
  | false => simp
  | true =>
    cases judge with
    | raises e => simp
    | unparseable => simp
    | returns out => exact eval_coerce_no_refine outst out (hj out rfl)

/-- The QA gate never outputs "refine" on a retry (attempt 2), whatever
its judge does. -/
theorem qa_evaluate_no_refine_on_retry (judge : CallResult QAOutput)
    (msg reply cat : String) (outst : Bool) (tools : Option (List String))
    (fb : Option String) :
    (qa_evaluate judge msg reply cat outst tools 2 fb).decision ≠ "refine" := by
  unfold qa_evaluate
  dsimp only
  rcases hf : fast_safety_check reply with ⟨isSafe, viol⟩
  cases isSafe with
  | false => simp
  | true =>
    cases judge with
    | raises e => simp
    | unparseable => simp
    | returns out => exact qa_coerce_retry_no_refine outst out

/-- C3: the decision field of the `PipelineResult` returned by `process`
is never "refine", assuming only that the standard gate's judge honours
its documented decision range {send, draft, escalate} (the QA judge is
unconstrained): a "refine" verdict on attempt 1 in team mode triggers the
single retry of Stages 4-6, and on attempt 2 the QA gate coerces a raw
"refine" to "draft" before the result is built. -/
theorem process_decision_never_refine (o : Oracles) (msg sid : String)
    (ce cn : Option String) (tm : Bool) (r : PipelineResult) (w : List WriteKind)
    (hj : ∀ out, o.evalJudge = .returns out → out.decision ≠ "refine")
    (hok : process o msg sid ce cn tm = .ok (r, w)) :
    r.decision ≠ "refine" := by
  unfold process at hok
  by_cases hred : (check_red_lines msg).is_flagged = true
  · rw [if_pos hred] at hok
    simp only [Except.ok.injEq, Prod.mk.injEq] at hok
    rw [← hok.1]
    simp [safety_result]
  · rw [if_neg hred] at hok
    cases hcl : classify_message o.routerCall with
    | error e => rw [hcl] at hok; cases hok
    | ok c =>
      rw [hcl] at hok
      dsimp only at hok
      cases hnm : extract_customer_name o.llmNameResult msg cn with
      | error e => rw [hnm] at hok; cases hok
      | ok nm =>
        rw [hnm] at hok
        dsimp only at hok
        cases hag : o.agentReply (build_context nm (pyOrStr ce c.email) o.history msg) with
        | error e =>
          rw [hag] at hok
          simp only [Except.ok.injEq, Prod.mk.injEq] at hok
          rw [← hok.1]
          simp [gen_failure_result]
        | ok reply1 =>
          rw [hag] at hok
          cases hcfg : configFor c.primary with
          | error e => rw [hcfg] at hok; cases hok
          | ok cfg =>
            rw [hcfg] at hok
            dsimp only at hok
            by_cases hrefine :
              (tm && ((run_evaluate o.evalJudge o.qaJudge tm msg
                  (post_process o.cancelLink o.md5idx reply1 (pyOrStr ce c.email)
                    c.primary nm sid)
                  c.primary (o.outstanding 1).is_outstanding
                  (if cfg.tools.isEmpty = true then none else some cfg.tools) 1
                  none).decision == "refine")) = true
            · rw [if_pos hrefine] at hok
              have htm : tm = true := by
                cases tm with
                | false => simp at hrefine
                | true => rfl
              subst htm
              cases hag2 : o.agentReply (build_context nm (pyOrStr ce c.email) o.history msg ++
                  feedback_block (run_evaluate o.evalJudge o.qaJudge true msg
                    (post_process o.cancelLink o.md5idx reply1 (pyOrStr ce c.email)
                      c.primary nm sid)
                    c.primary (o.outstanding 1).is_outstanding
                    (if cfg.tools.isEmpty = true then none else some cfg.tools) 1
                    none).feedback) with
              | error e =>
                rw [hag2] at hok
                simp only [Except.ok.injEq, Prod.mk.injEq] at hok
                rw [← hok.1]
                simp [gen_failure_result]
              | ok reply2 =>
                rw [hag2] at hok
                simp only [Except.ok.injEq, Prod.mk.injEq] at hok
                rw [← hok.1]
                exact qa_evaluate_no_refine_on_retry (o.qaJudge 2) msg
                  (post_process o.cancelLink o.md5idx reply2 (pyOrStr ce c.email)
                    c.primary nm sid)
                  c.primary (o.outstanding 2).is_outstanding
                  (if cfg.tools.isEmpty = true then none else some cfg.tools)
                  ((run_evaluate o.evalJudge o.qaJudge true msg
                    (post_process o.cancelLink o.md5idx reply1 (pyOrStr ce c.email)
                      c.primary nm sid)
                    c.primary (o.outstanding 1).is_outstanding
                    (if cfg.tools.isEmpty = true then none else some cfg.tools) 1
                    none).feedback)
            · rw [if_neg hrefine] at hok
              simp only [Except.ok.injEq, Prod.mk.injEq] at hok
              rw [← hok.1]
              cases htm : tm with
              | false =>
                subst htm
                exact evaluate_response_no_refine o.evalJudge msg
                  (post_process o.cancelLink o.md5idx reply1 (pyOrStr ce c.email)
                    c.primary nm sid)
                  c.primary (o.outstanding 1).is_outstanding
                  (if cfg.tools.isEmpty = true then none else some cfg.tools) hj
              | true =>
                subst htm
                intro hh
                apply hrefine
                simp only [Bool.true_and]
                exact beq_iff_eq.mpr hh

/-- Witness for C3: the theorem applied to a concrete run (the Stage-1
early-return path, whose result is computed exactly), with a stubbed
standard judge honouring its range. -/
theorem process_decision_never_refine_witness :
    process
      { routerCall := .unparseable, llmNameResult := "Client", history := [],
        agentReply := fun _ => .ok "ok", outstanding := fun _ => {},
        cancelLink := none, evalJudge := .returns { decision := "send" },
        qaJudge := fun _ => .unparseable, md5idx := 0, store := fun _ => .ok () }
      "I want to sue you" "s9" none none false =
      .ok (safety_result "s9" (some "legal_threat"), [])
    ∧ (safety_result "s9" (some "legal_threat")).decision ≠ "refine" :=
  ⟨by rfl,
   process_decision_never_refine
     { routerCall := .unparseable, llmNameResult := "Client", history := [],
       agentReply := fun _ => .ok "ok", outstanding := fun _ => {},
       cancelLink := none, evalJudge := .returns { decision := "send" },
       qaJudge := fun _ => .unparseable, md5idx := 0, store := fun _ => .ok () }
     "I want to sue you" "s9" none none false (safety_result "s9" (some "legal_threat")) []
     (by intro out h; cases h; decide) (by rfl)⟩

/-- Two strings with the same character data are equal. -/
theorem strEq_of_data (a b : String) (h : a.data = b.data) : a = b := by
  cases a
  cases b
  exact congrArg String.mk h

/-- Unfolding lemma for string concatenation at the data level. -/
theorem data_append (a b : String) : (a ++ b).data = a.data ++ b.data := rfl

/-- A customer turn is rendered whole, whatever its length. -/
theorem renderTurn_user (c : String) : renderTurn ⟨"user", c⟩ = "Customer: " ++ c := by
  simp [renderTurn]

/-- An agent turn longer than 500 characters is truncated. -/
theorem renderTurn_agent_long (c : String) (hc : 500 < c.length) :
    renderTurn ⟨"assistant", c⟩ = "Agent: " ++ (c.take 500 ++ "...") := by
  simp [renderTurn, hc]

/-- The generation input built from a single customer turn contains that
turn's content verbatim. -/
theorem build_context_single_user (name c msg : String) :
    build_context name none [⟨"user", c⟩] msg =
      "[Customer Name: " ++ name ++ "]" ++ "\n" ++ "" ++ "\n" ++ "[Conversation History]"
        ++ "\n" ++ ("Customer: " ++ c) ++ "\n" ++ "[End History]" ++ "\n" ++ ""
        ++ "\n" ++ msg := by
  apply strEq_of_data
  simp [build_context, renderTurn, optTruthy, String.intercalate, String.intercalate.go,
    data_append, List.append_assoc]

/-- C9 counterexample: Stage 3 does not length-cap every history turn —
a 501-character *customer* turn is rendered and spliced into the
generation input in full (no truncation), while the same content as an
*agent* turn is truncated to 500 characters plus "...". -/
theorem build_context_user_turn_uncapped :
    500 < (String.mk (List.replicate 501 'a')).length
    ∧ renderTurn ⟨"user", String.mk (List.replicate 501 'a')⟩ =
        "Customer: " ++ String.mk (List.replicate 501 'a')
    ∧ build_context "John" none [⟨"user", String.mk (List.replicate 501 'a')⟩] "hi" =
        "[Customer Name: " ++ "John" ++ "]" ++ "\n" ++ "" ++ "\n" ++ "[Conversation History]"
          ++ "\n" ++ ("Customer: " ++ String.mk (List.replicate 501 'a')) ++ "\n"
          ++ "[End History]" ++ "\n" ++ "" ++ "\n" ++ "hi"
    ∧ renderTurn ⟨"assistant", String.mk (List.replicate 501 'a')⟩ =
        "Agent: " ++ ((String.mk (List.replicate 501 'a')).take 500 ++ "...") := by
  have hlen : 500 < (String.mk (List.replicate 501 'a')).length := by
    show 500 < (List.replicate 501 'a').length
    rw [List.length_replicate]
    omega
  exact ⟨hlen, renderTurn_user _, build_context_single_user "John" _ "hi",
    renderTurn_agent_long _ hlen⟩

/-- C9 as amended: Stage 3 concatenates the customer name tag, the email
tag when the email is truthy, then the history window *in the order the
store read returned it* (each turn rendered with its role label), then a
blank line and the raw message; within the window only Agent turns longer
than 500 characters are truncated (customer turns pass through whole).
The history itself is the result of the store read performed inside this
stage; the rest is local string concatenation. -/
theorem build_context_structure (name e : String) (t1 t2 : HistoryMsg) (msg : String)
    (he : e ≠ "") (c : String) (hc : 500 < c.length) :
    build_context name (some e) [t1, t2] msg =
      "[Customer Name: " ++ name ++ "]" ++ "\n" ++ "[Customer Email: " ++ e ++ "]" ++ "\n"
        ++ "" ++ "\n" ++ "[Conversation History]" ++ "\n" ++ renderTurn t1 ++ "\n"
        ++ renderTurn t2 ++ "\n" ++ "[End History]" ++ "\n" ++ "" ++ "\n" ++ msg
    ∧ renderTurn ⟨"user", c⟩ = "Customer: " ++ c
    ∧ renderTurn ⟨"assistant", c⟩ = "Agent: " ++ (c.take 500 ++ "...") := by
  refine ⟨?_, renderTurn_user c, renderTurn_agent_long c hc⟩
  have he2 : optTruthy (some e) = true := by simp [optTruthy, he]
  apply strEq_of_data
  simp [build_context, he2, String.intercalate, String.intercalate.go,
    data_append, List.append_assoc]

/-- Witness for C9's amended theorem at concrete turns, with a
501-character content for the cap conjuncts. -/
theorem build_context_structure_witness :
    build_context "John" (some "j@example.com") [⟨"user", "hi"⟩, ⟨"assistant", "yo"⟩] "where" =
      "[Customer Name: " ++ "John" ++ "]" ++ "\n" ++ "[Customer Email: " ++ "j@example.com"
        ++ "]" ++ "\n" ++ "" ++ "\n" ++ "[Conversation History]" ++ "\n"
        ++ renderTurn ⟨"user", "hi"⟩ ++ "\n" ++ renderTurn ⟨"assistant", "yo"⟩
        ++ "\n" ++ "[End History]" ++ "\n" ++ "" ++ "\n" ++ "where"
    ∧ renderTurn ⟨"user", String.mk (List.replicate 501 'a')⟩ =
        "Customer: " ++ String.mk (List.replicate 501 'a')
    ∧ renderTurn ⟨"assistant", String.mk (List.replicate 501 'a')⟩ =
        "Agent: " ++ ((String.mk (List.replicate 501 'a')).take 500 ++ "...") :=
  build_context_structure "John" "j@example.com" ⟨"user", "hi"⟩ ⟨"assistant", "yo"⟩ "where"
    (by decide) (String.mk (List.replicate 501 'a'))
    (by show 500 < (List.replicate 501 'a').length
        rw [List.length_replicate]
        omega)

/-- A substitution with no match anywhere leaves the text unchanged. -/
theorem rsub_no_match (ci : Bool) (p : RPat) (r : List Char) (s : List Char)
    (h : rsearch ci p s = false) : rsub ci p r s = s := by
  have hn : searchFrom ci p none s = none := by
    cases hx : searchFrom ci p none s with
    | none => rfl
    | some v => rw [rsearch, hx] at h; simp at h
  unfold rsub
  cases hl : s.length with
  | zero => rfl
  | succ n =>
    show rsubFuel ci p r (n + 1) none s = s
    unfold rsubFuel
    rw [hn]

/-- String-level version of `rsub_no_match`. -/
theorem rsubS_no_match (p : RPat) (rep t : String) (h : rsearchS true p t = false) :
    rsubS true p rep t = t := by
  unfold rsubS
  rw [rsub_no_match _ _ _ _ h]

/-- A fold of substitutions none of which matches is the identity. -/
theorem foldl_rsub_id (l : List (RPat × String)) (t : String)
    (h : ∀ pr ∈ l, rsearchS true pr.1 t = false) :
    l.foldl (fun t pr => rsubS true pr.1 pr.2 t) t = t := by
  induction l with
  | nil => rfl
  | cons pr rest ih =>
    rw [List.foldl_cons, rsubS_no_match _ _ _ (h pr (List.mem_cons_self pr rest))]
    exact ih (fun q hq => h q (List.mem_cons_of_mem _ hq))

/-- Front-trimming commutes out of a back-trim of an already
front-trimmed list: the head survives both trims. -/
theorem dropWhile_rdropWhile_self (p : Char → Bool) (u : List Char)
    (hu : List.dropWhile p u = u) :
    List.dropWhile p (List.rdropWhile p u) = List.rdropWhile p u := by
  rw [List.dropWhile_eq_self_iff]
  intro h0
  have hpre := List.rdropWhile_prefix p u
  have hlen : (List.rdropWhile p u).length ≤ u.length := hpre.length_le
  have hget : (List.rdropWhile p u).get ⟨0, h0⟩ = u.get ⟨0, Nat.lt_of_lt_of_le h0 hlen⟩ := by
    simpa [List.get_eq_getElem] using List.IsPrefix.getElem hpre h0
  rw [List.dropWhile_eq_self_iff] at hu
  rw [hget]
  exact hu _

/-- `str.strip()` is idempotent (list level). -/
theorem stripWs_idem (l : List Char) : stripWs (stripWs l) = stripWs l := by
  have he : ∀ m : List Char, stripWs m =
      List.rdropWhile isSpaceChar (List.dropWhile isSpaceChar m) := fun _ => rfl
  rw [he, he]
  rw [dropWhile_rdropWhile_self isSpaceChar (List.dropWhile isSpaceChar l)
    (List.dropWhile_idempotent _ _)]
  exact List.rdropWhile_idempotent _ _

/-- `str.strip()` is idempotent (string level). -/
theorem stripS_idem (s : String) : stripS (stripS s) = stripS s := by
  unfold stripS
  exact congrArg String.mk (stripWs_idem s.data)

/-- The output of `_sanitize_response` is already stripped. -/
theorem sanitize_response_stripped (x cat : String) :
    stripS (sanitize_response x cat) = sanitize_response x cat := by
  unfold sanitize_response
  dsimp only
  exact stripS_idem _

/-- The trigger scan of the amended C8 claim: no leaked internal
message, no dangerous-promise match, no internal-field match. -/
def no_sanitize_triggers (t : String) : Bool :=
  !(containsS "Answer is not needed" t)
  && dangerous_patterns.all (fun pr => !(rsearchS true pr.1 t))
  && internal_field_patterns.all (fun pr => !(rsearchS true pr.1 t))

/-- C8 counterexample: `_sanitize_response` is not idempotent.  Removing
the occurrences of the internal phrase "Answer is not needed" from
`"Answer is Answer is not needednot needed"` splices the surrounding
fragments into a fresh occurrence that the same pass no longer sees, so
the first application returns `"Answer is not needed"` and a second
application erases it. -/
theorem sanitize_not_idempotent :
    sanitize_response "Answer is Answer is not needednot needed" "general" =
      "Answer is not needed"
    ∧ sanitize_response
        (sanitize_response "Answer is Answer is not needednot needed" "general") "general" = ""
    ∧ sanitize_response
        (sanitize_response "Answer is Answer is not needednot needed" "general") "general" ≠
      sanitize_response "Answer is Answer is not needednot needed" "general" := by
  refine ⟨by decide, by decide, by decide⟩

/-- A stripped, trigger-free text is a fixed point of the sanitizer. -/
theorem sanitize_clean_fixed (y cat2 : String)
    (hcont : containsS "Answer is not needed" y = false)
    (hdang : ∀ pr ∈ dangerous_patterns, rsearchS true pr.1 y = false)
    (hint : ∀ pr ∈ internal_field_patterns, rsearchS true pr.1 y = false)
    (hstrip : stripS y = y) :
    sanitize_response y cat2 = y := by
  unfold sanitize_response
  rw [hcont]
  rw [if_neg (by simp)]
  show stripS (List.foldl (fun t pr => rsubS true pr.1 pr.2 t)
      (List.foldl (fun t pr => rsubS true pr.1 pr.2 t) y dangerous_patterns)
      internal_field_patterns) = y
  rw [foldl_rsub_id dangerous_patterns y hdang]
  rw [foldl_rsub_id internal_field_patterns y hint]
  exact hstrip

/-- C8 as amended: sanitation is not idempotent in general (the phrase
removal can splice a new trigger out of fragments), but a second
application changes nothing whenever the first application's output is
free of every trigger substring: the first pass already stripped the
text, and a pass over trigger-free text only re-strips it. -/
theorem sanitize_second_pass_identity_on_clean (x cat cat2 : String)
    (h : no_sanitize_triggers (sanitize_response x cat) = true) :
    sanitize_response (sanitize_response x cat) cat2 = sanitize_response x cat := by
  simp only [no_sanitize_triggers, Bool.and_eq_true, Bool.not_eq_true',
    List.all_eq_true] at h
  obtain ⟨⟨hcont, hdang⟩, hint⟩ := h
  exact sanitize_clean_fixed _ cat2 hcont
    (fun pr hpr => by have := hdang pr hpr; simpa using this)
    (fun pr hpr => by have := hint pr hpr; simpa using this)
    (sanitize_response_stripped x cat)

/-- Witness for C8's amended theorem on an input the sanitizer leaves
trigger-free. -/
theorem sanitize_second_pass_identity_on_clean_witness :
    no_sanitize_triggers (sanitize_response "hello world" "general") = true
    ∧ sanitize_response (sanitize_response "hello world" "general") "general" =
        sanitize_response "hello world" "general" :=
  ⟨by decide, sanitize_second_pass_identity_on_clean "hello world" "general" "general" (by decide)⟩

/-- Witness for C5's amended theorem, at a concrete Tier-1 hit. -/
theorem qa_tier1_equals_standard_table_witness :
    fast_safety_check "We have paused your subscription." = (false, some "confirmed_pause")
    ∧ (qa_evaluate (.returns { decision := "send" }) "Pause my box."
          "We have paused your subscription." "skip_or_pause_request" false none 1 none =
        { decision := "draft", confidence := "high",
          checks := [{ name := "safety", passed := false, score := 0,
                       detail := "Regex safety violation: " ++ "confirmed_pause" }],
          override_reason := some ("Fast-fail regex: " ++ "confirmed_pause") }
      ∧ ∀ r : String, (fast_safety_check r).2 ≠ some "confirmed_damage_resolution") :=
  ⟨by decide,
   qa_tier1_equals_standard_table (.returns { decision := "send" }) "Pause my box."
     "We have paused your subscription." "skip_or_pause_request" false none 1 none
     "confirmed_pause" (by decide)⟩

end LH
